import Mathlib

/-!
# Google provider options of the guard authentication webhook

A shallow embedding of `auth/providers/google/options.go`: the `Options`
record, `NewOptions`, `Configure`, `AddFlags`, `Validate` and `Apply`,
together with the fragments of the Kubernetes object model that `Apply`
reads and writes.

Conventions of the embedding.

* Go strings are `String`, byte slices are lists of bytes, slices are lists
  (`append(xs, x)` is `xs ++ [x]`), a nil slice is `[]`, a nil pointer is
  `none`, and a Go map written once is the list of its entries.
* Reading slices as lists is exact as long as no `append` writes into cells
  another slice of the deployment views. `ApplyMem` is `Apply` on slices
  with their backing arrays; it agrees with `Apply` under that separation
  and shows what happens without it.
* The file system and the process environment are explicit arguments.
* A method with a pointer receiver that assigns to it (`Configure`) or
  passes pointers to its fields on (`AddFlags`) returns the receiver after
  the call. `Validate` only reads its receiver, and `Apply` has a value
  receiver and cannot change the caller's value: both return their results
  alone.
* Callers of the package (assignments to the exported fields between calls,
  the flag set reading a command line) are modelled after the methods.
* `*v1beta1.Deployment` is passed by pointer and mutated in place: `Apply`
  returns the deployment as it stands when the call returns.
* A run-time fault (index out of range) is an outcome of its own.
-/

namespace google

/-- A byte slice. -/
abbrev Bytes := List (Fin 256)

/-- Go `error` values met in this file: errors created by other packages
(the operating system, the oauth2 library), `errors.New` and `errors.Wrapf`
of `github.com/pkg/errors`. The message of `wrapf` is the rendered format. -/
inductive GoError where
  | foreign (msg : String)
  | new (msg : String)
  | wrapf (cause : GoError) (msg : String)
  deriving DecidableEq, Repr

/-- Go `errors.Cause`: the innermost error of a chain of wraps. -/
def GoError.Cause : GoError → GoError
  | .wrapf c _ => c.Cause
  | e => e

/-- Go `ioutil.ReadFile` as a function of the path: the bytes or the error. -/
abbrev ReadFile := String → Except GoError Bytes

/-- Go `os.Getenv`: the value of a variable, `""` when it is unset. -/
abbrev Getenv := String → String

/-- Go `jwt.Config` of `golang.org/x/oauth2/jwt`. -/
structure JwtConfig where
  Email : String
  PrivateKey : Bytes
  PrivateKeyID : String
  Subject : String
  Scopes : List String
  TokenURL : String
  deriving DecidableEq, Repr

/-- Go `google.JWTConfigFromJSON(jsonKey, scope...)`, a function of the oauth2
library: it returns either a configuration and a nil error, or a nil
configuration and an error. -/
abbrev JWTConfigFromJSON := Bytes → List String → Except GoError JwtConfig

/-- The constant `AdminDirectoryGroupReadonlyScope` of
`google.golang.org/api/admin/directory/v1`. -/
def AdminDirectoryGroupReadonlyScope : String :=
  "https://www.googleapis.com/auth/admin.directory.group.readonly"

/-- Go `type Options struct`. -/
structure Options where
  ServiceAccountJsonFile : String
  AdminEmail : String
  ClientID : String
  ClientSecret : String
  jwtConfig : Option JwtConfig
  deriving DecidableEq, Repr

/-- Go `func NewOptions() Options`. -/
def NewOptions (getenv : Getenv) : Options :=
  { ServiceAccountJsonFile := ""
    AdminEmail := ""
    ClientID := getenv "GOOGLE_CLIENT_ID"
    ClientSecret := getenv "GOOGLE_CLIENT_SECRET"
    jwtConfig := none }

/-- Go `func (o *Options) Configure() error`: the receiver after the call and
the returned error (`none` is nil). The assignment
`o.jwtConfig, err = google.JWTConfigFromJSON(...)` stores the nil
configuration the library returns together with an error. -/
def Options.Configure (readFile : ReadFile) (parse : JWTConfigFromJSON) (o : Options) :
    Options × Option GoError :=
  if o.ServiceAccountJsonFile ≠ "" then
    match readFile o.ServiceAccountJsonFile with
    | .error err =>
      (o, some (.wrapf err
        ("failed to load service account json file " ++ o.ServiceAccountJsonFile)))
    | .ok sa =>
      match parse sa [AdminDirectoryGroupReadonlyScope] with
      | .error err =>
        ({ o with jwtConfig := none }, some (.wrapf err
          ("failed to create JWT config from service account json file "
            ++ o.ServiceAccountJsonFile)))
      | .ok cfg =>
        ({ o with jwtConfig := some { cfg with Subject := o.AdminEmail } }, none)
  else
    (o, none)

/-- The four fields of `Options` a flag can be bound to. -/
inductive OptionsField where
  | ServiceAccountJsonFile
  | AdminEmail
  | ClientID
  | ClientSecret
  deriving DecidableEq, Repr

/-- One `fs.StringVar(p, name, value, usage)` registration. -/
structure StringFlag where
  Target : OptionsField
  Name : String
  DefValue : String
  Usage : String
  deriving DecidableEq, Repr

/-- A `pflag.FlagSet`: its registrations in order. No two have the same name. -/
abbrev FlagSet := List StringFlag

/-- Go `fs.StringVar(p, name, value, usage)` of `pflag`: the flag is added
to the set, and `*p = value` stores the default in the bound field. A name
the set already holds makes `pflag` panic (`flag redefined: name`); that
fault is `.error name`. -/
def FlagSet.StringVar (fs : FlagSet) (target : OptionsField) (name value usage : String) :
    Except String FlagSet :=
  if fs.any (fun f => f.Name == name) then .error name
  else .ok (fs ++ [⟨target, name, value, usage⟩])

/-- Go `func (o *Options) AddFlags(fs *pflag.FlagSet)`: the receiver and the
flag set after the call, or the fault of the first registration whose name
is taken. Each default is the field's own value, so the assignment
`*p = value` leaves the receiver as it is. -/
def Options.AddFlags (o : Options) (fs : FlagSet) : Except String (Options × FlagSet) := do
  let fs ← FlagSet.StringVar fs .ServiceAccountJsonFile "google.sa-json-file"
    o.ServiceAccountJsonFile "Path to Google service account json file"
  let fs ← FlagSet.StringVar fs .AdminEmail "google.admin-email" o.AdminEmail
    "Email of G Suite administrator"
  let fs ← FlagSet.StringVar fs .ClientID "google.client-id" o.ClientID
    "OAuth2 application client ID to use"
  let fs ← FlagSet.StringVar fs .ClientSecret "google.client-secret" o.ClientSecret
    "OAuth2 application client secret to use"
  pure (o, fs)

/-- Go `func (o *Options) Validate() []error`. -/
def Options.Validate (o : Options) : List GoError :=
  let errs : List GoError := []
  let errs := if o.ServiceAccountJsonFile = "" then
    errs ++ [.new "google.sa-json-file must be non-empty"] else errs
  let errs := if o.AdminEmail = "" then
    errs ++ [.new "google.admin-email must be non-empty"] else errs
  let errs := if o.ClientSecret = "" then
    errs ++ [.new "client secret must be non-empty"] else errs
  let errs := if o.ClientID = "" then
    errs ++ [.new "client-id must be non-empty"] else errs
  errs

/-! ## The Kubernetes objects `Apply` works on -/

/-- Go `metav1.ObjectMeta`. -/
structure ObjectMeta where
  Name : String
  Namespace : String
  Labels : List (String × String)
  Annotations : List (String × String)
  deriving DecidableEq, Repr

/-- Go `core.VolumeMount`. -/
structure VolumeMount where
  Name : String
  ReadOnly : Bool := false
  MountPath : String
  SubPath : String := ""
  deriving DecidableEq, Repr

/-- Go `core.SecretVolumeSource`. -/
structure SecretVolumeSource where
  SecretName : String
  DefaultMode : Option Int
  deriving DecidableEq, Repr

/-- Go `core.VolumeSource`. -/
structure VolumeSource where
  HostPath : Option String := none
  Secret : Option SecretVolumeSource := none
  deriving DecidableEq, Repr

/-- Go `core.Volume`. -/
structure Volume where
  Name : String
  VolumeSource : VolumeSource
  deriving DecidableEq, Repr

/-- Go `core.LocalObjectReference`. -/
structure LocalObjectReference where
  Name : String
  deriving DecidableEq, Repr

/-- Go `core.SecretKeySelector`. -/
structure SecretKeySelector where
  LocalObjectReference : LocalObjectReference
  Key : String
  deriving DecidableEq, Repr

/-- Go `core.EnvVarSource`. -/
structure EnvVarSource where
  ConfigMapKeyRef : Option (String × String) := none
  SecretKeyRef : Option SecretKeySelector := none
  deriving DecidableEq, Repr

/-- Go `core.EnvVar`. -/
structure EnvVar where
  Name : String
  Value : String := ""
  ValueFrom : Option EnvVarSource := none
  deriving DecidableEq, Repr

/-- Go `core.Container`. -/
structure Container where
  Name : String
  Image : String
  Command : List String
  Args : List String
  Env : List EnvVar
  VolumeMounts : List VolumeMount
  deriving DecidableEq, Repr

/-- Go `core.PodSpec`. -/
structure PodSpec where
  Volumes : List Volume
  Containers : List Container
  ServiceAccountName : String
  deriving DecidableEq, Repr

/-- Go `core.PodTemplateSpec`. -/
structure PodTemplateSpec where
  ObjectMeta : ObjectMeta
  Spec : PodSpec
  deriving DecidableEq, Repr

/-- Go `v1beta1.DeploymentSpec`. -/
structure DeploymentSpec where
  Replicas : Option Int
  Template : PodTemplateSpec
  deriving DecidableEq, Repr

/-- Go `v1beta1.Deployment`. -/
structure Deployment where
  ObjectMeta : ObjectMeta
  Spec : DeploymentSpec
  deriving DecidableEq, Repr

/-- Go `core.Secret`. -/
structure Secret where
  ObjectMeta : ObjectMeta
  Data : List (String × Bytes)
  deriving DecidableEq, Repr

/-- Go `runtime.Object`: the kinds of object met here. -/
inductive RuntimeObject where
  | secret (s : Secret)
  | deployment (d : Deployment)
  deriving DecidableEq, Repr

/-- Go `types.Int32P`: a pointer to the given `int32`. -/
def Int32P (v : Int) : Option Int := some v

/-- How a call of `Apply` ends: with a run-time fault, or by returning
`(extraObjs, err)` with the deployment left as `d`. -/
inductive ApplyOutcome where
  | fault (msg : String)
  | returned (d : Deployment) (extraObjs : List RuntimeObject) (err : Option GoError)
  deriving DecidableEq, Repr

/-- Go `func (o Options) Apply(d *v1beta1.Deployment) (extraObjs []runtime.Object, err error)`,
with slices read as lists. The `;` that follows the literal
`"google-oidc-credentials"` in the source is read as the `,` the composite
literal needs. -/
def Options.Apply (readFile : ReadFile) (o : Options) (d : Deployment) : ApplyOutcome :=
  match d.Spec.Template.Spec.Containers with
  | [] => .fault "index out of range [0] with length 0"
  | container :: _ =>
    let extraObjs : List RuntimeObject := []
    -- create auth secret
    match readFile o.ServiceAccountJsonFile with
    | .error err => .returned d [] (some err)
    | .ok sa =>
      let authSecret : Secret :=
        { ObjectMeta :=
            { Name := "guard-google-auth"
              Namespace := d.ObjectMeta.Namespace
              Labels := d.ObjectMeta.Labels
              Annotations := [] }
          Data := [("sa.json", sa)] }
      let extraObjs := extraObjs ++ [RuntimeObject.secret authSecret]
      -- mount auth secret into deployment
      let volMount : VolumeMount :=
        { Name := authSecret.ObjectMeta.Name
          MountPath := "/etc/guard/auth/google" }
      let container := { container with VolumeMounts := container.VolumeMounts ++ [volMount] }
      let vol : Volume :=
        { Name := authSecret.ObjectMeta.Name
          VolumeSource :=
            { Secret := some
                { SecretName := authSecret.ObjectMeta.Name
                  DefaultMode := Int32P 0o555 } } }
      let d := { d with Spec.Template.Spec.Volumes := d.Spec.Template.Spec.Volumes ++ [vol] }
      -- use auth secret in container[0] args
      let container := { container with Env := container.Env ++ [
        ({ Name := "GOOGLE_CLIENT_SECRET"
           ValueFrom := some
             { SecretKeyRef := some
                 { LocalObjectReference := { Name := "google-oidc-credentials" }
                   Key := "client-secret" } } } : EnvVar)] }
      let args := container.Args
      let args := if o.ClientID ≠ "" then
        args ++ ["--google.client-id=" ++ o.ClientID] else args
      let args := if o.ServiceAccountJsonFile ≠ "" then
        args ++ ["--google.sa-json-file=/etc/guard/auth/google/sa.json"] else args
      let args := if o.AdminEmail ≠ "" then
        args ++ ["--google.admin-email=" ++ o.AdminEmail] else args
      let container := { container with Args := args }
      let d := { d with Spec.Template.Spec.Containers :=
        d.Spec.Template.Spec.Containers.set 0 container }
      .returned d extraObjs none

/-! ## Slices and their backing arrays

`Apply` appends to slices of the deployment. In Go a slice is a view of a
backing array, and `append` writes into the array when the slice has spare
capacity, so that another slice viewing the same cells changes with it. The
definitions below keep the backing arrays, to tell when the list reading of
`Apply` above is the whole story. -/

/-- A Go slice value: the backing array it points into, the offset of its
first element in that array, its length and its capacity. -/
structure Slice where
  arr : Nat
  off : Nat
  len : Nat
  cap : Nat
  deriving DecidableEq, Repr

/-- The backing arrays of one element type: `h a i` is element `i` of array
`a`. -/
abbrev Arrays (α : Type) := Nat → Nat → α

/-- The elements of a slice, `s[0]` to `s[len(s)-1]`. -/
def Arrays.view {α : Type} (h : Arrays α) (s : Slice) : List α :=
  (List.range s.len).map (fun i => h s.arr (s.off + i))

/-- The result of an `append`: the arrays and the first unused array
identifier after the call, and the slice returned. -/
structure Appended (α : Type) where
  arrays : Arrays α
  next : Nat
  slice : Slice

/-- Go `append(s, x)`. With spare capacity the element is written into the
backing array of `s`, right after its last element; otherwise a new array is
allocated (identifier `next`, capacity at least the length needed, as the
runtime chooses through `grow`), the elements are copied and `x` is put
after them, the remaining cells holding the zero value. -/
def Arrays.append {α : Type} (zero : α) (grow : Nat → Nat) (h : Arrays α) (next : Nat)
    (s : Slice) (x : α) : Appended α :=
  if s.len < s.cap then
    { arrays := Function.update h s.arr (Function.update (h s.arr) (s.off + s.len) x)
      next := next
      slice := { s with len := s.len + 1 } }
  else
    { arrays := Function.update h next
        (fun i => if i < s.len then h s.arr (s.off + i) else if i = s.len then x else zero)
      next := next + 1
      slice := { arr := next, off := 0, len := s.len + 1, cap := max (grow (s.len + 1)) (s.len + 1) } }

/-- Go `core.Container` in memory: its slices are slice values. -/
structure ContainerMem where
  Name : String
  Image : String
  Command : Slice
  Args : Slice
  Env : Slice
  VolumeMounts : Slice
  deriving DecidableEq, Repr

/-- Go `core.PodSpec` in memory. -/
structure PodSpecMem where
  Volumes : Slice
  Containers : Slice
  ServiceAccountName : String
  deriving DecidableEq, Repr

/-- Go `core.PodTemplateSpec` in memory. -/
structure PodTemplateSpecMem where
  ObjectMeta : ObjectMeta
  Spec : PodSpecMem
  deriving DecidableEq, Repr

/-- Go `v1beta1.DeploymentSpec` in memory. -/
structure DeploymentSpecMem where
  Replicas : Option Int
  Template : PodTemplateSpecMem
  deriving DecidableEq, Repr

/-- Go `v1beta1.Deployment` in memory. -/
structure DeploymentMem where
  ObjectMeta : ObjectMeta
  Spec : DeploymentSpecMem
  deriving DecidableEq, Repr

/-- The memory a deployment lives in: the backing arrays of its slices, by
element type, and the first array identifier not yet allocated. -/
structure Memory where
  strings : Arrays String
  envVars : Arrays EnvVar
  volumeMounts : Arrays VolumeMount
  volumes : Arrays Volume
  containers : Arrays ContainerMem
  next : Nat

/-- The container a container in memory stands for: each slice read as the
list of its elements. -/
def Memory.container (m : Memory) (c : ContainerMem) : Container :=
  { Name := c.Name
    Image := c.Image
    Command := Arrays.view m.strings c.Command
    Args := Arrays.view m.strings c.Args
    Env := Arrays.view m.envVars c.Env
    VolumeMounts := Arrays.view m.volumeMounts c.VolumeMounts }

/-- The deployment a deployment in memory stands for. -/
def Memory.deployment (m : Memory) (d : DeploymentMem) : Deployment :=
  { ObjectMeta := d.ObjectMeta
    Spec :=
      { Replicas := d.Spec.Replicas
        Template :=
          { ObjectMeta := d.Spec.Template.ObjectMeta
            Spec :=
              { Volumes := Arrays.view m.volumes d.Spec.Template.Spec.Volumes
                Containers :=
                  (Arrays.view m.containers d.Spec.Template.Spec.Containers).map m.container
                ServiceAccountName := d.Spec.Template.Spec.ServiceAccountName } } } }

/-- Assignment of `v` to one exported field, `o.Field = v`. -/
def Options.setField (o : Options) : OptionsField → String → Options
  | .ServiceAccountJsonFile, v => { o with ServiceAccountJsonFile := v }
  | .AdminEmail, v => { o with AdminEmail := v }
  | .ClientID, v => { o with ClientID := v }
  | .ClientSecret, v => { o with ClientSecret := v }

/-- What a caller does to an `Options` value: assign a field or call
`Configure`. -/
inductive Action where
  | set (field : OptionsField) (value : String)
  | configure
  deriving DecidableEq, Repr

/-- The record of one call of `Configure`: the value ServiceAccountJsonFile
had when the call was made, and the error the call returned. -/
structure ConfigureCall where
  Path : String
  Err : Option GoError
  deriving DecidableEq, Repr

/-- The state of a run: the `Options` value and the calls of `Configure` made
so far, oldest first. -/
structure RunState where
  opts : Options
  calls : List ConfigureCall
  deriving DecidableEq, Repr

/-- One action of a run. -/
def RunState.step (readFile : ReadFile) (parse : JWTConfigFromJSON) (s : RunState) :
    Action → RunState
  | .set field value => { s with opts := s.opts.setField field value }
  | .configure =>
    { opts := (s.opts.Configure readFile parse).1
      calls := s.calls ++
        [⟨s.opts.ServiceAccountJsonFile, (s.opts.Configure readFile parse).2⟩] }

/-- The state reached from the options `o` by the actions `acts`, in order. -/
def runFrom (readFile : ReadFile) (parse : JWTConfigFromJSON) (o : Options)
    (acts : List Action) : RunState :=
  acts.foldl (RunState.step readFile parse) ⟨o, []⟩

/-! ## The command line read back

The arguments `Apply` writes are read by the flag set of the process started
in the container. `pflag` is a library outside this repository; of its
parser only the rule for a long flag written `--name=value` is needed. -/

/-- The rule of `pflag` for the argument `--name=value`: the name is what
stands between the two dashes and the first `=`, the value everything after
that `=`. An empty name, a name starting with `-` or `=`, and an argument
without `=` or without the two dashes are outside this rule. -/
def parseLongArg (arg : String) : Option (String × String) :=
  match arg.data with
  | '-' :: '-' :: rest =>
    match rest with
    | [] => none
    | '-' :: _ => none
    | '=' :: _ => none
    | _ =>
      match rest.dropWhile (fun ch => ch != '=') with
      | '=' :: value => some (String.mk (rest.takeWhile (fun ch => ch != '=')), String.mk value)
      | _ => none
  | _ => none

/-- Parsing of a list of `--name=value` arguments by the flag set `fs`: each
argument assigns its value to the field the flag of that name is bound to;
an argument outside the rule or naming no registered flag is an error. The
options `o` hold the defaults. -/
def FlagSet.Parse (fs : FlagSet) (o : Options) : List String → Option Options
  | [] => some o
  | arg :: rest =>
    match parseLongArg arg with
    | none => none
    | some (name, value) =>
      match fs.find? (fun f => f.Name = name) with
      | none => none
      | some f => FlagSet.Parse fs (o.setField f.Target value) rest

/-! ## The example of the specification

Key file `/tmp/key.json`, administrator `admin@example.com`, client id `cid`,
deployment `guard` in namespace `ns`. -/

/-- The bytes of `{"type":"service_account"}`, the content of `/tmp/key.json`. -/
def exampleKey : Bytes :=
  [123, 34, 116, 121, 112, 101, 34, 58, 34, 115, 101, 114, 118, 105, 99, 101, 95, 97, 99,
   99, 111, 117, 110, 116, 34, 125]

/-- A file system holding the key file `/tmp/key.json` and a second file,
`/srv/keys/other.json`, with content `{}`. -/
def exampleReadFile : ReadFile := fun path =>
  if path = "/tmp/key.json" then .ok exampleKey
  else if path = "/srv/keys/other.json" then .ok [123, 125]
  else .error (.foreign ("open " ++ path ++ ": no such file or directory"))

/-- The oauth2 parser on the files of the example: `exampleKey` is a
service-account key without further fields, anything else is rejected. -/
def exampleParse : JWTConfigFromJSON := fun jsonKey scope =>
  if jsonKey = exampleKey then
    .ok { Email := ""
          PrivateKey := []
          PrivateKeyID := ""
          Subject := ""
          Scopes := scope
          TokenURL := "https://accounts.google.com/o/oauth2/token" }
  else
    .error (.foreign "google: read JWT from JSON credentials: 'type' field is \"\" (expected \"service_account\")")

/-- The options of the example. -/
def exampleOptions : Options :=
  { ServiceAccountJsonFile := "/tmp/key.json"
    AdminEmail := "admin@example.com"
    ClientID := "cid"
    ClientSecret := "s3cret"
    jwtConfig := none }

/-- The example options with a key-file path that does not exist. -/
def missingKeyOptions : Options :=
  { exampleOptions with ServiceAccountJsonFile := "/nonexistent/key.json" }

/-- The example options with the readable but malformed second file. -/
def malformedKeyOptions : Options :=
  { exampleOptions with ServiceAccountJsonFile := "/srv/keys/other.json" }

/-- The example options without an administrator email. -/
def noAdminOptions : Options :=
  { exampleOptions with AdminEmail := "" }

/-- The first container of the example deployment. -/
def exampleContainer : Container :=
  { Name := "guard"
    Image := "appscode/guard"
    Command := []
    Args := ["run", "--v=3"]
    Env := []
    VolumeMounts := [] }

/-- A second container, which `Apply` does not touch. -/
def exampleSidecar : Container :=
  { Name := "sidecar"
    Image := "busybox"
    Command := ["sleep"]
    Args := ["3600"]
    Env := [{ Name := "MODE", Value := "idle" }]
    VolumeMounts := [] }

/-- The deployment `guard` in namespace `ns`. -/
def exampleDeployment : Deployment :=
  { ObjectMeta := ⟨"guard", "ns", [("app", "guard")], []⟩
    Spec :=
      { Replicas := some 1
        Template :=
          { ObjectMeta := ⟨"", "", [("app", "guard")], []⟩
            Spec :=
              { Volumes := []
                Containers := [exampleContainer, exampleSidecar]
                ServiceAccountName := "guard" } } } }

/-- A process environment that sets only `GOOGLE_CLIENT_ID`. -/
def exampleGetenv : Getenv := fun name =>
  if name = "GOOGLE_CLIENT_ID" then "env-client" else ""

/-- The options left by a successful `Configure` of the example options whose
key-file path is cleared afterwards. -/
def clearedPathOptions : Options :=
  { (exampleOptions.Configure exampleReadFile exampleParse).1 with
    ServiceAccountJsonFile := "" }

/-- A run that configures the example key file and then a missing one. -/
def staleRun : List Action :=
  [.set .ServiceAccountJsonFile "/tmp/key.json", .configure,
   .set .ServiceAccountJsonFile "/nonexistent/key.json", .configure]

/-- A run that configures the example key file and then the malformed one. -/
def resetRun : List Action :=
  [.set .ServiceAccountJsonFile "/tmp/key.json", .configure,
   .set .ServiceAccountJsonFile "/srv/keys/other.json", .configure]

/-- The example deployment without any container. -/
def emptyDeployment : Deployment :=
  { exampleDeployment with Spec.Template.Spec.Containers := [] }

/-- The example options with another client secret. -/
def sameIdSecretOptions : Options :=
  { exampleOptions with ClientSecret := "cid" }

/-- The example options without a client id. -/
def noClientIdOptions : Options :=
  { exampleOptions with ClientID := "" }

/-- The arguments `Apply` appends for the options `o`, in the order of the
three `if` statements of the source. -/
theorem appendedArgs_eq (o : Options) (A : List String) :
    (if o.AdminEmail ≠ "" then
      (if o.ServiceAccountJsonFile ≠ "" then
        (if o.ClientID ≠ "" then A ++ ["--google.client-id=" ++ o.ClientID] else A)
          ++ ["--google.sa-json-file=/etc/guard/auth/google/sa.json"]
       else (if o.ClientID ≠ "" then A ++ ["--google.client-id=" ++ o.ClientID] else A))
        ++ ["--google.admin-email=" ++ o.AdminEmail]
     else
      (if o.ServiceAccountJsonFile ≠ "" then
        (if o.ClientID ≠ "" then A ++ ["--google.client-id=" ++ o.ClientID] else A)
          ++ ["--google.sa-json-file=/etc/guard/auth/google/sa.json"]
       else (if o.ClientID ≠ "" then A ++ ["--google.client-id=" ++ o.ClientID] else A)))
    = A ++ ((if o.ClientID ≠ "" then ["--google.client-id=" ++ o.ClientID] else [])
        ++ (if o.ServiceAccountJsonFile ≠ "" then
              ["--google.sa-json-file=/etc/guard/auth/google/sa.json"] else [])
        ++ (if o.AdminEmail ≠ "" then ["--google.admin-email=" ++ o.AdminEmail] else [])) := by
  by_cases h1 : o.ClientID = "" <;> by_cases h2 : o.ServiceAccountJsonFile = "" <;>
    by_cases h3 : o.AdminEmail = "" <;> simp [h1, h2, h3]

/-- What a call of `Apply` returns when the deployment has a first container
and the key file is readable. -/
theorem Apply_of_cons_ok (readFile : ReadFile) (o : Options) (d : Deployment)
    (c : Container) (rest : List Container) (sa : Bytes)
    (hc : d.Spec.Template.Spec.Containers = c :: rest)
    (hr : readFile o.ServiceAccountJsonFile = .ok sa) :
    o.Apply readFile d = .returned
      { d with
        Spec.Template.Spec.Volumes := d.Spec.Template.Spec.Volumes ++
          [{ Name := "guard-google-auth"
             VolumeSource :=
               { Secret := some ⟨"guard-google-auth", some 0o555⟩ } }]
        Spec.Template.Spec.Containers :=
          { c with
            VolumeMounts := c.VolumeMounts ++
              [{ Name := "guard-google-auth", MountPath := "/etc/guard/auth/google" }]
            Env := c.Env ++
              [{ Name := "GOOGLE_CLIENT_SECRET"
                 ValueFrom := some
                   { SecretKeyRef := some ⟨⟨"google-oidc-credentials"⟩, "client-secret"⟩ } }]
            Args := c.Args ++
              ((if o.ClientID ≠ "" then ["--google.client-id=" ++ o.ClientID] else [])
                ++ (if o.ServiceAccountJsonFile ≠ "" then
                      ["--google.sa-json-file=/etc/guard/auth/google/sa.json"] else [])
                ++ (if o.AdminEmail ≠ "" then
                      ["--google.admin-email=" ++ o.AdminEmail] else [])) } :: rest }
      [.secret
        { ObjectMeta :=
            { Name := "guard-google-auth"
              Namespace := d.ObjectMeta.Namespace
              Labels := d.ObjectMeta.Labels
              Annotations := [] }
          Data := [("sa.json", sa)] }]
      none := by
  unfold Options.Apply
  simp only [hc, hr, Int32P, List.set_cons_zero, List.nil_append, appendedArgs_eq]

/-- A call of `Apply` that returns a nil error found a first container and
read the key file. -/
theorem Apply_success_inv {readFile : ReadFile} {o : Options} {d d' : Deployment}
    {objs : List RuntimeObject} (h : o.Apply readFile d = .returned d' objs none) :
    ∃ c rest sa, d.Spec.Template.Spec.Containers = c :: rest ∧
      readFile o.ServiceAccountJsonFile = .ok sa := by
  cases hc : d.Spec.Template.Spec.Containers with
  | nil =>
    unfold Options.Apply at h
    simp [hc] at h
  | cons c rest =>
    cases hr : readFile o.ServiceAccountJsonFile with
    | error e =>
      unfold Options.Apply at h
      simp [hc, hr] at h
    | ok sa => exact ⟨c, rest, sa, rfl, rfl⟩

/-! ## `Validate` -/

/-- C1: `Validate` returns exactly the sub-list of the four fixed messages
selected by the empty fields among ServiceAccountJsonFile, AdminEmail,
ClientSecret, ClientID, in that order: one error per empty field, and the
empty list if and only if all four fields are non-empty. -/
theorem Validate_exact (o : Options) :
    o.Validate =
      (([(o.ServiceAccountJsonFile, "google.sa-json-file must be non-empty"),
         (o.AdminEmail, "google.admin-email must be non-empty"),
         (o.ClientSecret, "client secret must be non-empty"),
         (o.ClientID, "client-id must be non-empty")].filter
          (fun p => decide (p.1 = ""))).map (fun p => GoError.new p.2))
    ∧ o.Validate.length =
        ([o.ServiceAccountJsonFile, o.AdminEmail, o.ClientSecret, o.ClientID].filter
          (fun f => decide (f = ""))).length
    ∧ (o.Validate = [] ↔
        (o.ServiceAccountJsonFile ≠ "" ∧ o.AdminEmail ≠ "" ∧
          o.ClientSecret ≠ "" ∧ o.ClientID ≠ "")) := by
  unfold Options.Validate
  by_cases h1 : o.ServiceAccountJsonFile = "" <;> by_cases h2 : o.AdminEmail = "" <;>
    by_cases h3 : o.ClientSecret = "" <;> by_cases h4 : o.ClientID = "" <;>
    simp [h1, h2, h3, h4, List.filter]

/-! ## `Apply` on success -/

/-- C2: on a deployment with at least one container, when the key file reads
as `b`, `Apply` returns a nil error and an extra-object list of length one
whose element is a Secret named `guard-google-auth` with the namespace and
labels of the deployment and the single data entry `sa.json` holding `b`. -/
theorem Apply_returns_secret (readFile : ReadFile) (o : Options) (d : Deployment) (b : Bytes)
    (hc : d.Spec.Template.Spec.Containers ≠ [])
    (hr : readFile o.ServiceAccountJsonFile = .ok b) :
    ∃ (d' : Deployment) (objs : List RuntimeObject) (s : Secret),
      o.Apply readFile d = .returned d' objs none ∧
      objs.length = 1 ∧
      objs = [.secret s] ∧
      s.ObjectMeta.Name = "guard-google-auth" ∧
      s.ObjectMeta.Namespace = d.ObjectMeta.Namespace ∧
      s.ObjectMeta.Labels = d.ObjectMeta.Labels ∧
      s.Data = [("sa.json", b)] := by
  obtain ⟨c, rest, hcs⟩ := List.exists_cons_of_ne_nil hc
  exact ⟨_, _, _, Apply_of_cons_ok readFile o d c rest b hcs hr, rfl, rfl, rfl, rfl, rfl, rfl⟩

/-- The specification example satisfies the hypotheses of C2 and gets the
Secret in namespace `ns`. -/
theorem Apply_returns_secret_witness :
    exampleDeployment.Spec.Template.Spec.Containers ≠ [] ∧
    exampleReadFile exampleOptions.ServiceAccountJsonFile = .ok exampleKey ∧
    ∃ (d' : Deployment) (objs : List RuntimeObject) (s : Secret),
      exampleOptions.Apply exampleReadFile exampleDeployment = .returned d' objs none ∧
      objs.length = 1 ∧
      objs = [.secret s] ∧
      s.ObjectMeta.Name = "guard-google-auth" ∧
      s.ObjectMeta.Namespace = exampleDeployment.ObjectMeta.Namespace ∧
      s.ObjectMeta.Labels = exampleDeployment.ObjectMeta.Labels ∧
      s.Data = [("sa.json", exampleKey)] :=
  ⟨by decide, rfl,
    Apply_returns_secret exampleReadFile exampleOptions exampleDeployment exampleKey
      (by decide) rfl⟩

/-- C3: after a successful `Apply` the last VolumeMount of container 0 and
the last Volume of the pod template are the ones this call appended, and
they cross-reference the returned Secret: the VolumeMount name, the Volume
name, the SecretName of the Volume source and the Secret name are all
`guard-google-auth`, the mount path is `/etc/guard/auth/google`, and the
DefaultMode is octal 0555, that is 365. -/
theorem Apply_volume_wiring (readFile : ReadFile) (o : Options) (d d' : Deployment)
    (objs : List RuntimeObject) (h : o.Apply readFile d = .returned d' objs none) :
    ∃ (c c' : Container) (vm : VolumeMount) (vol : Volume) (src : SecretVolumeSource)
      (s : Secret),
      d.Spec.Template.Spec.Containers[0]? = some c ∧
      d'.Spec.Template.Spec.Containers[0]? = some c' ∧
      c'.VolumeMounts = c.VolumeMounts ++ [vm] ∧
      c'.VolumeMounts.getLast? = some vm ∧
      d'.Spec.Template.Spec.Volumes = d.Spec.Template.Spec.Volumes ++ [vol] ∧
      d'.Spec.Template.Spec.Volumes.getLast? = some vol ∧
      objs = [.secret s] ∧
      vol.VolumeSource.Secret = some src ∧
      vm.Name = s.ObjectMeta.Name ∧
      vol.Name = s.ObjectMeta.Name ∧
      src.SecretName = s.ObjectMeta.Name ∧
      s.ObjectMeta.Name = "guard-google-auth" ∧
      vm.MountPath = "/etc/guard/auth/google" ∧
      src.DefaultMode = some 0o555 ∧
      src.DefaultMode = some 365 := by
  obtain ⟨c, rest, sa, hc, hr⟩ := Apply_success_inv h
  rw [Apply_of_cons_ok readFile o d c rest sa hc hr] at h
  simp only [ApplyOutcome.returned.injEq] at h
  obtain ⟨rfl, rfl, -⟩ := h
  refine ⟨c, _, _, _, _, _, by simp [hc], by simp; rfl, rfl, by simp, rfl, by simp,
    rfl, rfl, rfl, rfl, rfl, rfl, rfl, rfl, rfl⟩

/-- The specification example is a successful `Apply`, and C3 holds of it. -/
theorem Apply_volume_wiring_witness :
    ∃ (d' : Deployment) (objs : List RuntimeObject),
      exampleOptions.Apply exampleReadFile exampleDeployment = .returned d' objs none ∧
      ∃ (c c' : Container) (vm : VolumeMount) (vol : Volume) (src : SecretVolumeSource)
        (s : Secret),
        exampleDeployment.Spec.Template.Spec.Containers[0]? = some c ∧
        d'.Spec.Template.Spec.Containers[0]? = some c' ∧
        c'.VolumeMounts = c.VolumeMounts ++ [vm] ∧
        c'.VolumeMounts.getLast? = some vm ∧
        d'.Spec.Template.Spec.Volumes = exampleDeployment.Spec.Template.Spec.Volumes ++ [vol] ∧
        d'.Spec.Template.Spec.Volumes.getLast? = some vol ∧
        objs = [.secret s] ∧
        vol.VolumeSource.Secret = some src ∧
        vm.Name = s.ObjectMeta.Name ∧
        vol.Name = s.ObjectMeta.Name ∧
        src.SecretName = s.ObjectMeta.Name ∧
        s.ObjectMeta.Name = "guard-google-auth" ∧
        vm.MountPath = "/etc/guard/auth/google" ∧
        src.DefaultMode = some 0o555 ∧
        src.DefaultMode = some 365 :=
  ⟨_, _, rfl, Apply_volume_wiring exampleReadFile exampleOptions exampleDeployment _ _ rfl⟩

/-- C4: when ServiceAccountJsonFile is non-empty, the `--google.sa-json-file=`
argument appended by a successful `Apply` carries the mount path of the
appended VolumeMount, then `/`, then the data key of the returned Secret,
that is `/etc/guard/auth/google/sa.json`; and options that differ only in a
non-empty, readable ServiceAccountJsonFile give the same arguments. -/
theorem Apply_sa_json_file_arg (readFile : ReadFile) (o₁ o₂ : Options)
    (d d₁ d₂ : Deployment) (objs₁ objs₂ : List RuntimeObject)
    (hne₁ : o₁.ServiceAccountJsonFile ≠ "") (hne₂ : o₂.ServiceAccountJsonFile ≠ "")
    (hsame : o₂ = { o₁ with ServiceAccountJsonFile := o₂.ServiceAccountJsonFile })
    (h₁ : o₁.Apply readFile d = .returned d₁ objs₁ none)
    (h₂ : o₂.Apply readFile d = .returned d₂ objs₂ none) :
    ∃ (c c₁ c₂ : Container) (vm : VolumeMount) (s : Secret) (key : String) (val : Bytes),
      d.Spec.Template.Spec.Containers[0]? = some c ∧
      d₁.Spec.Template.Spec.Containers[0]? = some c₁ ∧
      d₂.Spec.Template.Spec.Containers[0]? = some c₂ ∧
      c₁.VolumeMounts.getLast? = some vm ∧
      objs₁ = [.secret s] ∧
      s.Data = [(key, val)] ∧
      (c₁.Args.drop c.Args.length)[if o₁.ClientID = "" then 0 else 1]? =
        some ("--google.sa-json-file=" ++ (vm.MountPath ++ "/" ++ key)) ∧
      vm.MountPath ++ "/" ++ key = "/etc/guard/auth/google/sa.json" ∧
      (c₂.Args.drop c.Args.length)[if o₂.ClientID = "" then 0 else 1]? =
        (c₁.Args.drop c.Args.length)[if o₁.ClientID = "" then 0 else 1]? ∧
      c₂.Args = c₁.Args := by
  obtain ⟨c, rest, sa₁, hc, hr₁⟩ := Apply_success_inv h₁
  obtain ⟨c₀, rest₀, sa₂, hc₀, hr₂⟩ := Apply_success_inv h₂
  rw [Apply_of_cons_ok readFile o₁ d c rest sa₁ hc hr₁] at h₁
  rw [Apply_of_cons_ok readFile o₂ d c rest sa₂ hc hr₂] at h₂
  simp only [ApplyOutcome.returned.injEq] at h₁ h₂
  obtain ⟨rfl, rfl, -⟩ := h₁
  obtain ⟨rfl, rfl, -⟩ := h₂
  have hid : o₂.ClientID = o₁.ClientID := by rw [hsame]
  have hem : o₂.AdminEmail = o₁.AdminEmail := by rw [hsame]
  refine ⟨c, _, _, ⟨"guard-google-auth", false, "/etc/guard/auth/google", ""⟩, _, "sa.json",
    sa₁, by simp [hc], by simp; rfl, by simp; rfl, by simp, rfl, rfl, ?_, rfl, ?_, ?_⟩
  · by_cases hcid : o₁.ClientID = "" <;> simp [hcid, hne₁]
  · simp [hid, hem, hne₁, hne₂]
  · simp [hid, hem, hne₁, hne₂]

/-- Two options of the example differing only in the key-file path, both
readable, satisfy the hypotheses of C4. -/
theorem Apply_sa_json_file_arg_witness :
    exampleOptions.ServiceAccountJsonFile ≠ "" ∧
    malformedKeyOptions.ServiceAccountJsonFile ≠ "" ∧
    malformedKeyOptions.ServiceAccountJsonFile ≠ exampleOptions.ServiceAccountJsonFile ∧
    ∃ (d₁ d₂ : Deployment) (objs₁ objs₂ : List RuntimeObject),
      exampleOptions.Apply exampleReadFile exampleDeployment = .returned d₁ objs₁ none ∧
      malformedKeyOptions.Apply exampleReadFile exampleDeployment = .returned d₂ objs₂ none ∧
      objs₁ ≠ objs₂ ∧
      ∃ (c c₁ c₂ : Container) (vm : VolumeMount) (s : Secret) (key : String) (val : Bytes),
        exampleDeployment.Spec.Template.Spec.Containers[0]? = some c ∧
        d₁.Spec.Template.Spec.Containers[0]? = some c₁ ∧
        d₂.Spec.Template.Spec.Containers[0]? = some c₂ ∧
        c₁.VolumeMounts.getLast? = some vm ∧
        objs₁ = [.secret s] ∧
        s.Data = [(key, val)] ∧
        (c₁.Args.drop c.Args.length)[if exampleOptions.ClientID = "" then 0 else 1]? =
          some ("--google.sa-json-file=" ++ (vm.MountPath ++ "/" ++ key)) ∧
        vm.MountPath ++ "/" ++ key = "/etc/guard/auth/google/sa.json" ∧
        (c₂.Args.drop c.Args.length)[if exampleOptions.ClientID = "" then 0 else 1]? =
          (c₁.Args.drop c.Args.length)[if exampleOptions.ClientID = "" then 0 else 1]? ∧
        c₂.Args = c₁.Args :=
  ⟨by decide, by decide, by decide, _, _, _, _, rfl, rfl, by decide,
    Apply_sa_json_file_arg exampleReadFile exampleOptions malformedKeyOptions
      exampleDeployment _ _ _ _ (by decide) (by decide) rfl rfl rfl⟩

/-- C5: when the first container has arguments `A`, after a successful
`Apply` its arguments are `A` followed by `--google.client-id=` with ClientID
if ClientID is non-empty, then
`--google.sa-json-file=/etc/guard/auth/google/sa.json` if
ServiceAccountJsonFile is non-empty, then `--google.admin-email=` with
AdminEmail if AdminEmail is non-empty, and nothing else. -/
theorem Apply_args (readFile : ReadFile) (o : Options) (d d' : Deployment)
    (objs : List RuntimeObject) (c : Container) (A : List String)
    (hc : d.Spec.Template.Spec.Containers[0]? = some c) (hA : c.Args = A)
    (h : o.Apply readFile d = .returned d' objs none) :
    ∃ c' : Container,
      d'.Spec.Template.Spec.Containers[0]? = some c' ∧
      c'.Args = A
        ++ (if o.ClientID ≠ "" then ["--google.client-id=" ++ o.ClientID] else [])
        ++ (if o.ServiceAccountJsonFile ≠ "" then
              ["--google.sa-json-file=/etc/guard/auth/google/sa.json"] else [])
        ++ (if o.AdminEmail ≠ "" then ["--google.admin-email=" ++ o.AdminEmail] else []) := by
  obtain ⟨c₀, rest, sa, hc₀, hr⟩ := Apply_success_inv h
  rw [Apply_of_cons_ok readFile o d c₀ rest sa hc₀ hr] at h
  simp only [ApplyOutcome.returned.injEq] at h
  obtain ⟨rfl, -, -⟩ := h
  have hcc : c₀ = c := by simpa [hc₀] using hc
  subst hcc
  subst hA
  exact ⟨_, by simp; rfl, by simp⟩

/-- The specification example: key file `/tmp/key.json`, administrator
`admin@example.com` and client id `cid` give arguments ending with the
three generated arguments. -/
theorem Apply_args_witness :
    exampleDeployment.Spec.Template.Spec.Containers[0]? = some exampleContainer ∧
    exampleContainer.Args = ["run", "--v=3"] ∧
    ∃ (d' : Deployment) (objs : List RuntimeObject),
      exampleOptions.Apply exampleReadFile exampleDeployment = .returned d' objs none ∧
      ∃ c' : Container,
        d'.Spec.Template.Spec.Containers[0]? = some c' ∧
        c'.Args = ["run", "--v=3"] ++
          ["--google.client-id=cid",
           "--google.sa-json-file=/etc/guard/auth/google/sa.json",
           "--google.admin-email=admin@example.com"] :=
  ⟨rfl, rfl, _, _, rfl,
    Apply_args exampleReadFile exampleOptions exampleDeployment _ _ exampleContainer
      ["run", "--v=3"] rfl rfl rfl⟩

/-- C7: after a successful `Apply` the Env list of the first container is its
previous Env list followed by exactly one entry, named
`GOOGLE_CLIENT_SECRET`, whose value source is a secret-key reference to the
secret `google-oidc-credentials`, key `client-secret`; that secret name
differs from the name of every Secret in the returned objects, and the entry
has no literal value. -/
theorem Apply_env (readFile : ReadFile) (o : Options) (d d' : Deployment)
    (objs : List RuntimeObject) (h : o.Apply readFile d = .returned d' objs none) :
    ∃ (c c' : Container) (ev : EnvVar) (src : EnvVarSource) (ref : SecretKeySelector),
      d.Spec.Template.Spec.Containers[0]? = some c ∧
      d'.Spec.Template.Spec.Containers[0]? = some c' ∧
      c'.Env = c.Env ++ [ev] ∧
      c'.Env.length = c.Env.length + 1 ∧
      ev.Name = "GOOGLE_CLIENT_SECRET" ∧
      ev.Value = "" ∧
      ev.ValueFrom = some src ∧
      src.ConfigMapKeyRef = none ∧
      src.SecretKeyRef = some ref ∧
      ref.LocalObjectReference.Name = "google-oidc-credentials" ∧
      ref.Key = "client-secret" ∧
      (∃ s : Secret, objs = [.secret s] ∧
        ref.LocalObjectReference.Name ≠ s.ObjectMeta.Name) := by
  obtain ⟨c, rest, sa, hc, hr⟩ := Apply_success_inv h
  rw [Apply_of_cons_ok readFile o d c rest sa hc hr] at h
  simp only [ApplyOutcome.returned.injEq] at h
  obtain ⟨rfl, rfl, -⟩ := h
  refine ⟨c, _, ⟨"GOOGLE_CLIENT_SECRET", "", some ⟨none, some
    ⟨⟨"google-oidc-credentials"⟩, "client-secret"⟩⟩⟩,
    ⟨none, some ⟨⟨"google-oidc-credentials"⟩, "client-secret"⟩⟩,
    ⟨⟨"google-oidc-credentials"⟩, "client-secret"⟩, by simp [hc], by simp; rfl, rfl,
    by simp, rfl, rfl, rfl, rfl, rfl, rfl, rfl, ⟨_, rfl, ?_⟩⟩
  show "google-oidc-credentials" ≠ "guard-google-auth"
  decide

/-- The specification example is a successful `Apply`, and C7 holds of it. -/
theorem Apply_env_witness :
    ∃ (d' : Deployment) (objs : List RuntimeObject),
      exampleOptions.Apply exampleReadFile exampleDeployment = .returned d' objs none ∧
      ∃ (c c' : Container) (ev : EnvVar) (src : EnvVarSource) (ref : SecretKeySelector),
        exampleDeployment.Spec.Template.Spec.Containers[0]? = some c ∧
        d'.Spec.Template.Spec.Containers[0]? = some c' ∧
        c'.Env = c.Env ++ [ev] ∧
        c'.Env.length = c.Env.length + 1 ∧
        ev.Name = "GOOGLE_CLIENT_SECRET" ∧
        ev.Value = "" ∧
        ev.ValueFrom = some src ∧
        src.ConfigMapKeyRef = none ∧
        src.SecretKeyRef = some ref ∧
        ref.LocalObjectReference.Name = "google-oidc-credentials" ∧
        ref.Key = "client-secret" ∧
        (∃ s : Secret, objs = [.secret s] ∧
          ref.LocalObjectReference.Name ≠ s.ObjectMeta.Name) :=
  ⟨_, _, rfl, Apply_env exampleReadFile exampleOptions exampleDeployment _ _ rfl⟩

/-- C6, as stated, fails: for the key-file path `/nonexistent/key.json` the
read fails in both `Configure` and `Apply`; `Configure` returns the read
error wrapped with the path context, while `Apply` returns the bare read
error, which is no wrap of anything and differs from the error `Configure`
returns. -/
theorem Apply_read_failure_not_wrapped :
    missingKeyOptions.ServiceAccountJsonFile ≠ "" ∧
    exampleDeployment.Spec.Template.Spec.Containers ≠ [] ∧
    exampleReadFile missingKeyOptions.ServiceAccountJsonFile =
      .error (.foreign "open /nonexistent/key.json: no such file or directory") ∧
    (missingKeyOptions.Configure exampleReadFile exampleParse).2 =
      some (.wrapf (.foreign "open /nonexistent/key.json: no such file or directory")
        "failed to load service account json file /nonexistent/key.json") ∧
    missingKeyOptions.Apply exampleReadFile exampleDeployment =
      .returned exampleDeployment []
        (some (.foreign "open /nonexistent/key.json: no such file or directory")) ∧
    (¬ ∃ (d' : Deployment) (objs : List RuntimeObject) (cause : GoError) (msg : String),
        missingKeyOptions.Apply exampleReadFile exampleDeployment =
          .returned d' objs (some (.wrapf cause msg))) ∧
    (¬ ∃ (d' : Deployment) (objs : List RuntimeObject),
        missingKeyOptions.Apply exampleReadFile exampleDeployment =
          .returned d' objs (missingKeyOptions.Configure exampleReadFile exampleParse).2) := by
  have hA : missingKeyOptions.Apply exampleReadFile exampleDeployment =
      .returned exampleDeployment []
        (some (.foreign "open /nonexistent/key.json: no such file or directory")) := rfl
  have hC : (missingKeyOptions.Configure exampleReadFile exampleParse).2 =
      some (.wrapf (.foreign "open /nonexistent/key.json: no such file or directory")
        "failed to load service account json file /nonexistent/key.json") := rfl
  refine ⟨by decide, by decide, rfl, hC, hA, ?_, ?_⟩
  · rintro ⟨d', objs, cause, msg, h⟩
    rw [hA] at h
    simp at h
  · rintro ⟨d', objs, h⟩
    rw [hA, hC] at h
    simp at h

/-- C6, amended: on a deployment with at least one container, when the read
of the key file fails with `e`, `Apply` returns no objects and the error `e`
itself, unwrapped; for a non-empty path the error `Configure` returns for
the same failure is `e` wrapped with the message naming the path, so the
two errors have the same cause. -/
theorem Apply_read_failure (readFile : ReadFile) (parse : JWTConfigFromJSON) (o : Options)
    (d : Deployment) (e : GoError)
    (hc : d.Spec.Template.Spec.Containers ≠ [])
    (hr : readFile o.ServiceAccountJsonFile = .error e) :
    (∃ d' : Deployment, o.Apply readFile d = .returned d' [] (some e)) ∧
    (o.ServiceAccountJsonFile ≠ "" →
      (o.Configure readFile parse).2 =
          some (.wrapf e
            ("failed to load service account json file " ++ o.ServiceAccountJsonFile)) ∧
      ∀ ec, (o.Configure readFile parse).2 = some ec → ec.Cause = e.Cause) := by
  obtain ⟨c, rest, hcs⟩ := List.exists_cons_of_ne_nil hc
  have hA : o.Apply readFile d = .returned d [] (some e) := by
    unfold Options.Apply
    simp only [hcs, hr]
  have hC : o.ServiceAccountJsonFile ≠ "" → (o.Configure readFile parse).2 =
      some (.wrapf e
        ("failed to load service account json file " ++ o.ServiceAccountJsonFile)) := by
    intro hne
    unfold Options.Configure
    simp only [hne, hr, ne_eq, not_false_eq_true, if_true]
  refine ⟨⟨d, hA⟩, fun hne => ⟨hC hne, ?_⟩⟩
  intro ec hec
  rw [hC hne] at hec
  simp only [Option.some.injEq] at hec
  subst hec
  rfl

/-- The missing key file of the example satisfies the hypotheses of the
amended C6. -/
theorem Apply_read_failure_witness :
    exampleDeployment.Spec.Template.Spec.Containers ≠ [] ∧
    exampleReadFile missingKeyOptions.ServiceAccountJsonFile =
      .error (.foreign "open /nonexistent/key.json: no such file or directory") ∧
    (∃ d' : Deployment, missingKeyOptions.Apply exampleReadFile exampleDeployment =
      .returned d' []
        (some (.foreign "open /nonexistent/key.json: no such file or directory"))) ∧
    (missingKeyOptions.ServiceAccountJsonFile ≠ "" →
      (missingKeyOptions.Configure exampleReadFile exampleParse).2 =
          some (.wrapf (.foreign "open /nonexistent/key.json: no such file or directory")
            ("failed to load service account json file "
              ++ missingKeyOptions.ServiceAccountJsonFile)) ∧
      ∀ ec, (missingKeyOptions.Configure exampleReadFile exampleParse).2 = some ec →
        ec.Cause =
          (GoError.foreign "open /nonexistent/key.json: no such file or directory").Cause) :=
  ⟨by decide, rfl,
    Apply_read_failure exampleReadFile exampleParse missingKeyOptions exampleDeployment
      (.foreign "open /nonexistent/key.json: no such file or directory") (by decide) rfl⟩

/-! ## `Configure` -/

/-- The two messages `Configure` wraps its errors with never coincide,
whatever the paths. -/
theorem configure_messages_ne (p q : String) :
    "failed to load service account json file " ++ p ≠
      "failed to create JWT config from service account json file " ++ q := by
  intro h
  have hd := congrArg String.data h
  simp [String.data_append] at hd

/-- The result of `Configure` when the path is non-empty and the read fails. -/
theorem Configure_of_read_error (readFile : ReadFile) (parse : JWTConfigFromJSON)
    (o : Options) (e : GoError) (hne : o.ServiceAccountJsonFile ≠ "")
    (hr : readFile o.ServiceAccountJsonFile = .error e) :
    o.Configure readFile parse =
      (o, some (.wrapf e
        ("failed to load service account json file " ++ o.ServiceAccountJsonFile))) := by
  unfold Options.Configure
  simp only [hne, hr, ne_eq, not_false_eq_true, if_true]

/-- The result of `Configure` when the path is non-empty, the read succeeds
and the parser rejects the payload. -/
theorem Configure_of_parse_error (readFile : ReadFile) (parse : JWTConfigFromJSON)
    (o : Options) (b : Bytes) (e : GoError) (hne : o.ServiceAccountJsonFile ≠ "")
    (hr : readFile o.ServiceAccountJsonFile = .ok b)
    (hp : parse b [AdminDirectoryGroupReadonlyScope] = .error e) :
    o.Configure readFile parse =
      ({ o with jwtConfig := none }, some (.wrapf e
        ("failed to create JWT config from service account json file "
          ++ o.ServiceAccountJsonFile))) := by
  unfold Options.Configure
  simp only [hne, hr, hp, ne_eq, not_false_eq_true, if_true]

/-- The result of `Configure` when the path is non-empty and both the read
and the parse succeed. -/
theorem Configure_of_parse_ok (readFile : ReadFile) (parse : JWTConfigFromJSON)
    (o : Options) (b : Bytes) (cfg : JwtConfig) (hne : o.ServiceAccountJsonFile ≠ "")
    (hr : readFile o.ServiceAccountJsonFile = .ok b)
    (hp : parse b [AdminDirectoryGroupReadonlyScope] = .ok cfg) :
    o.Configure readFile parse =
      ({ o with jwtConfig := some { cfg with Subject := o.AdminEmail } }, none) := by
  unfold Options.Configure
  simp only [hne, hr, hp, ne_eq, not_false_eq_true, if_true]

/-- C9: for a non-empty ServiceAccountJsonFile, a failed read makes
`Configure` return the read error wrapped with a message that ends with the
path; a successful read whose payload the parser rejects makes it return the
parser error wrapped with a different message; an error of the first kind is
never equal to one of the second kind; and `Configure` returns a nil error
exactly when both the read and the parse succeed. -/
theorem Configure_errors (readFile : ReadFile) (parse : JWTConfigFromJSON) (o : Options)
    (hne : o.ServiceAccountJsonFile ≠ "") :
    (∀ e, readFile o.ServiceAccountJsonFile = .error e →
      (o.Configure readFile parse).2 = some (.wrapf e
        ("failed to load service account json file " ++ o.ServiceAccountJsonFile))) ∧
    (∀ b e, readFile o.ServiceAccountJsonFile = .ok b →
      parse b [AdminDirectoryGroupReadonlyScope] = .error e →
      (o.Configure readFile parse).2 = some (.wrapf e
        ("failed to create JWT config from service account json file "
          ++ o.ServiceAccountJsonFile))) ∧
    (∀ (readFile' : ReadFile) (parse' : JWTConfigFromJSON) (o' : Options) (e : GoError)
        (b' : Bytes) (e' : GoError),
      o'.ServiceAccountJsonFile ≠ "" →
      readFile o.ServiceAccountJsonFile = .error e →
      readFile' o'.ServiceAccountJsonFile = .ok b' →
      parse' b' [AdminDirectoryGroupReadonlyScope] = .error e' →
      (o.Configure readFile parse).2 ≠ (o'.Configure readFile' parse').2) ∧
    ((o.Configure readFile parse).2 = none ↔
      ∃ b cfg, readFile o.ServiceAccountJsonFile = .ok b ∧
        parse b [AdminDirectoryGroupReadonlyScope] = .ok cfg) := by
  refine ⟨?_, ?_, ?_, ?_⟩
  · intro e hr
    rw [Configure_of_read_error readFile parse o e hne hr]
  · intro b e hr hp
    rw [Configure_of_parse_error readFile parse o b e hne hr hp]
  · intro readFile' parse' o' e b' e' hne' hr hr' hp' heq
    rw [Configure_of_read_error readFile parse o e hne hr,
      Configure_of_parse_error readFile' parse' o' b' e' hne' hr' hp'] at heq
    simp only [Option.some.injEq, GoError.wrapf.injEq] at heq
    exact configure_messages_ne _ _ heq.2
  · cases hr : readFile o.ServiceAccountJsonFile with
    | error e =>
      rw [Configure_of_read_error readFile parse o e hne hr]
      simp
    | ok b =>
      cases hp : parse b [AdminDirectoryGroupReadonlyScope] with
      | error e =>
        rw [Configure_of_parse_error readFile parse o b e hne hr hp]
        simp [hp]
      | ok cfg =>
        rw [Configure_of_parse_ok readFile parse o b cfg hne hr hp]
        simp [hp]

/-- The missing key file gives the wrapped read error, the malformed one
the wrapped parser error, and the example key no error. -/
theorem Configure_errors_witness :
    missingKeyOptions.ServiceAccountJsonFile ≠ "" ∧
    (missingKeyOptions.Configure exampleReadFile exampleParse).2 =
      some (.wrapf (.foreign "open /nonexistent/key.json: no such file or directory")
        "failed to load service account json file /nonexistent/key.json") ∧
    (missingKeyOptions.Configure exampleReadFile exampleParse).2 ≠
      (malformedKeyOptions.Configure exampleReadFile exampleParse).2 ∧
    (malformedKeyOptions.Configure exampleReadFile exampleParse).2 ≠ none ∧
    (exampleOptions.Configure exampleReadFile exampleParse).2 = none :=
  ⟨by decide,
    (Configure_errors exampleReadFile exampleParse missingKeyOptions (by decide)).1 _ rfl,
    (Configure_errors exampleReadFile exampleParse missingKeyOptions (by decide)).2.2.1
      exampleReadFile exampleParse malformedKeyOptions _ _ _ (by decide) rfl rfl rfl,
    by decide,
    (Configure_errors exampleReadFile exampleParse exampleOptions (by decide)).2.2.2.mpr
      ⟨_, _, rfl, rfl⟩⟩

/-- C10: for a non-empty ServiceAccountJsonFile on which `Configure` returns
a nil error, the credential is the descriptor the parser produced from the
bytes of the file with the single scope AdminDirectoryGroupReadonlyScope,
with Subject replaced by AdminEmail; the other fields of the options are
unchanged; and the error `Configure` returns does not depend on AdminEmail,
so an empty AdminEmail raises none. -/
theorem Configure_credential (readFile : ReadFile) (parse : JWTConfigFromJSON) (o : Options)
    (hne : o.ServiceAccountJsonFile ≠ "")
    (h : (o.Configure readFile parse).2 = none) :
    (∃ b cfg, readFile o.ServiceAccountJsonFile = .ok b ∧
      parse b [AdminDirectoryGroupReadonlyScope] = .ok cfg ∧
      (o.Configure readFile parse).1.jwtConfig = some { cfg with Subject := o.AdminEmail } ∧
      (o.Configure readFile parse).1 =
        { o with jwtConfig := some { cfg with Subject := o.AdminEmail } }) ∧
    (∀ cred, (o.Configure readFile parse).1.jwtConfig = some cred →
      cred.Subject = o.AdminEmail) ∧
    (∀ email : String,
      (({ o with AdminEmail := email } : Options).Configure readFile parse).2 = none) := by
  cases hr : readFile o.ServiceAccountJsonFile with
  | error e =>
    rw [Configure_of_read_error readFile parse o e hne hr] at h
    simp at h
  | ok b =>
    cases hp : parse b [AdminDirectoryGroupReadonlyScope] with
    | error e =>
      rw [Configure_of_parse_error readFile parse o b e hne hr hp] at h
      simp at h
    | ok cfg =>
      rw [Configure_of_parse_ok readFile parse o b cfg hne hr hp]
      refine ⟨⟨b, cfg, rfl, hp, rfl, rfl⟩, ?_, ?_⟩
      · intro cred hcred
        simp only [Option.some.injEq] at hcred
        rw [← hcred]
      · intro email
        rw [Configure_of_parse_ok readFile parse { o with AdminEmail := email } b cfg hne hr hp]

/-- The example options without an administrator email: `Configure` returns
no error and the credential has the empty Subject. -/
theorem Configure_credential_witness :
    noAdminOptions.ServiceAccountJsonFile ≠ "" ∧
    noAdminOptions.AdminEmail = "" ∧
    (noAdminOptions.Configure exampleReadFile exampleParse).2 = none ∧
    (∃ b cfg, exampleReadFile noAdminOptions.ServiceAccountJsonFile = .ok b ∧
      exampleParse b [AdminDirectoryGroupReadonlyScope] = .ok cfg ∧
      (noAdminOptions.Configure exampleReadFile exampleParse).1.jwtConfig =
        some { cfg with Subject := noAdminOptions.AdminEmail } ∧
      (noAdminOptions.Configure exampleReadFile exampleParse).1 =
        { noAdminOptions with
          jwtConfig := some { cfg with Subject := noAdminOptions.AdminEmail } }) ∧
    (∀ cred, (noAdminOptions.Configure exampleReadFile exampleParse).1.jwtConfig = some cred →
      cred.Subject = noAdminOptions.AdminEmail) ∧
    (∀ email : String,
      (({ noAdminOptions with AdminEmail := email } : Options).Configure
        exampleReadFile exampleParse).2 = none) :=
  ⟨by decide, rfl, by decide,
    Configure_credential exampleReadFile exampleParse noAdminOptions (by decide) (by decide)⟩

/-- The result of `Configure` when the path is empty. -/
theorem Configure_of_empty_path (readFile : ReadFile) (parse : JWTConfigFromJSON)
    (o : Options) (he : o.ServiceAccountJsonFile = "") :
    o.Configure readFile parse = (o, none) := by
  unfold Options.Configure
  simp only [he, ne_eq, not_true_eq_false, if_false]

/-- C11, as stated, fails: after a successful `Configure` of the example
options the caller clears ServiceAccountJsonFile; the next `Configure`
returns a nil error and changes nothing, so the credential of the earlier
call is still set afterwards. -/
theorem Configure_empty_path_keeps_credential :
    clearedPathOptions.ServiceAccountJsonFile = "" ∧
    clearedPathOptions =
      (runFrom exampleReadFile exampleParse exampleOptions
        [.configure, .set .ServiceAccountJsonFile ""]).opts ∧
    (clearedPathOptions.Configure exampleReadFile exampleParse).2 = none ∧
    (clearedPathOptions.Configure exampleReadFile exampleParse).1 = clearedPathOptions ∧
    (clearedPathOptions.Configure exampleReadFile exampleParse).1.jwtConfig ≠ none := by
  refine ⟨rfl, rfl, rfl, rfl, ?_⟩
  decide

/-- C11, amended: when ServiceAccountJsonFile is empty, `Configure` returns a
nil error and the unchanged options whatever the file system and the parser
are (it reads no file); no field changes, so the credential afterwards is
the credential before the call, unset exactly when it was unset before. -/
theorem Configure_empty_path (readFile : ReadFile) (parse : JWTConfigFromJSON) (o : Options)
    (he : o.ServiceAccountJsonFile = "") :
    (o.Configure readFile parse).2 = none ∧
    (o.Configure readFile parse).1 = o ∧
    (∀ (readFile' : ReadFile) (parse' : JWTConfigFromJSON),
      o.Configure readFile' parse' = o.Configure readFile parse) ∧
    (o.Configure readFile parse).1.jwtConfig = o.jwtConfig ∧
    ((o.Configure readFile parse).1.jwtConfig = none ↔ o.jwtConfig = none) := by
  rw [Configure_of_empty_path readFile parse o he]
  refine ⟨rfl, rfl, ?_, rfl, Iff.rfl⟩
  intro readFile' parse'
  rw [Configure_of_empty_path readFile' parse' o he]

/-- Freshly constructed options have an empty path and no credential:
`Configure` succeeds on them and leaves the credential unset. -/
theorem Configure_empty_path_witness :
    (NewOptions exampleGetenv).ServiceAccountJsonFile = "" ∧
    (NewOptions exampleGetenv).jwtConfig = none ∧
    ((NewOptions exampleGetenv).Configure exampleReadFile exampleParse).2 = none ∧
    ((NewOptions exampleGetenv).Configure exampleReadFile exampleParse).1.jwtConfig = none :=
  ⟨rfl, rfl,
    (Configure_empty_path exampleReadFile exampleParse (NewOptions exampleGetenv) rfl).1,
    (Configure_empty_path exampleReadFile exampleParse (NewOptions exampleGetenv)
      rfl).2.2.2.2.mpr rfl⟩

/-! ## The credential over a run -/

/-- Assigning an exported field leaves the credential as it is. -/
theorem setField_jwtConfig (o : Options) (field : OptionsField) (v : String) :
    (o.setField field v).jwtConfig = o.jwtConfig := by
  cases field <;> rfl

/-- A run extended by one action is one step from the run. -/
theorem runFrom_snoc (readFile : ReadFile) (parse : JWTConfigFromJSON) (o : Options)
    (acts : List Action) (a : Action) :
    runFrom readFile parse o (acts ++ [a]) =
      (runFrom readFile parse o acts).step readFile parse a := by
  simp [runFrom, List.foldl_append]

/-- The credential after one call of `Configure`: set exactly when the call
stores a parsed configuration, and otherwise what it was unless the parser
failed. -/
theorem Configure_jwtConfig (readFile : ReadFile) (parse : JWTConfigFromJSON) (o : Options) :
    ((o.Configure readFile parse).1.jwtConfig ≠ none →
      (o.ServiceAccountJsonFile ≠ "" ∧ (o.Configure readFile parse).2 = none) ∨
      o.jwtConfig ≠ none) ∧
    (o.ServiceAccountJsonFile ≠ "" → (o.Configure readFile parse).2 = none →
      (o.Configure readFile parse).1.jwtConfig ≠ none) ∧
    ((o.Configure readFile parse).2 ≠ none →
      (o.Configure readFile parse).1.jwtConfig = none ∨
      (o.Configure readFile parse).1.jwtConfig = o.jwtConfig) := by
  by_cases he : o.ServiceAccountJsonFile = ""
  · rw [Configure_of_empty_path readFile parse o he]
    simp [he]
  · cases hr : readFile o.ServiceAccountJsonFile with
    | error e =>
      rw [Configure_of_read_error readFile parse o e he hr]
      simp
    | ok b =>
      cases hp : parse b [AdminDirectoryGroupReadonlyScope] with
      | error e =>
        rw [Configure_of_parse_error readFile parse o b e he hr hp]
        simp
      | ok cfg =>
        rw [Configure_of_parse_ok readFile parse o b cfg he hr hp]
        simp [he]

/-- In a run from options without a credential, a credential that is set was
stored by a call of `Configure` with a non-empty path and a nil error. -/
theorem run_credential_origin (readFile : ReadFile) (parse : JWTConfigFromJSON)
    (o : Options) (ho : o.jwtConfig = none) (acts : List Action) :
    (runFrom readFile parse o acts).opts.jwtConfig ≠ none →
      ∃ c ∈ (runFrom readFile parse o acts).calls, c.Path ≠ "" ∧ c.Err = none := by
  induction acts using List.reverseRecOn with
  | nil =>
    intro h
    exact absurd ho h
  | append_singleton acts a ih =>
    rw [runFrom_snoc]
    cases a with
    | set field v =>
      intro h
      simp only [RunState.step, setField_jwtConfig] at h
      exact ih h
    | configure =>
      intro h
      simp only [RunState.step] at h ⊢
      rcases (Configure_jwtConfig readFile parse
        (runFrom readFile parse o acts).opts).1 h with hgood | hold
      · exact ⟨_, List.mem_append_right _ (List.mem_singleton_self _), hgood.1, hgood.2⟩
      · obtain ⟨c, hc, hc'⟩ := ih hold
        exact ⟨c, List.mem_append_left _ hc, hc'⟩

/-- A run without a call of `Configure` leaves the credential as it was. -/
theorem run_sets_jwtConfig (readFile : ReadFile) (parse : JWTConfigFromJSON)
    (o : Options) (acts : List Action) (hs : ∀ a ∈ acts, a ≠ Action.configure) :
    (runFrom readFile parse o acts).opts.jwtConfig = o.jwtConfig ∧
    (runFrom readFile parse o acts).calls = [] := by
  induction acts using List.reverseRecOn with
  | nil => exact ⟨rfl, rfl⟩
  | append_singleton acts a ih =>
    rw [runFrom_snoc]
    have ih' := ih (fun b hb => hs b (List.mem_append_left _ hb))
    cases a with
    | set field v =>
      simp only [RunState.step, setField_jwtConfig]
      exact ih'
    | configure =>
      exact absurd rfl (hs Action.configure (List.mem_append_right _ (List.mem_singleton_self _)))

/-- C12, as stated, fails: from freshly constructed options, configure the
example key file, then point ServiceAccountJsonFile to a missing file and
call `Configure` again. The second call returns an error, yet the credential
of the first call is still present. A call that succeeded earlier does not
keep the credential present either: a later call on a malformed file clears
it. -/
theorem credential_invariant_fails :
    (∃ c, (runFrom exampleReadFile exampleParse (NewOptions exampleGetenv) staleRun).calls.getLast?
        = some c ∧ c.Err ≠ none) ∧
    (runFrom exampleReadFile exampleParse (NewOptions exampleGetenv) staleRun).opts.jwtConfig
      ≠ none ∧
    ¬ ((runFrom exampleReadFile exampleParse (NewOptions exampleGetenv) staleRun).opts.jwtConfig
        ≠ none ↔
      ∃ c, (runFrom exampleReadFile exampleParse (NewOptions exampleGetenv)
        staleRun).calls.getLast? = some c ∧ c.Path ≠ "" ∧ c.Err = none) ∧
    (∃ c ∈ (runFrom exampleReadFile exampleParse (NewOptions exampleGetenv) resetRun).calls,
      c.Path ≠ "" ∧ c.Err = none) ∧
    (runFrom exampleReadFile exampleParse (NewOptions exampleGetenv) resetRun).opts.jwtConfig
      = none := by
  have hlast : (runFrom exampleReadFile exampleParse (NewOptions exampleGetenv)
      staleRun).calls.getLast? = some ⟨"/nonexistent/key.json",
        some (.wrapf (.foreign "open /nonexistent/key.json: no such file or directory")
          "failed to load service account json file /nonexistent/key.json")⟩ := rfl
  have hcred : (runFrom exampleReadFile exampleParse (NewOptions exampleGetenv)
      staleRun).opts.jwtConfig ≠ none := by decide
  refine ⟨⟨_, hlast, by simp⟩, hcred, ?_, ⟨⟨"/tmp/key.json", none⟩, ?_, by decide, rfl⟩, rfl⟩
  · intro hiff
    obtain ⟨c, hc, -, herr⟩ := hiff.mp hcred
    rw [hlast] at hc
    simp only [Option.some.injEq] at hc
    subst hc
    simp at herr
  · show (⟨"/tmp/key.json", none⟩ : ConfigureCall) ∈
      [⟨"/tmp/key.json", none⟩, ⟨"/srv/keys/other.json", _⟩]
    exact List.mem_cons_self _ _

/-- C12, amended: in every state reachable from freshly constructed options
by assigning fields and calling `Configure`, a present credential was stored
by a call of `Configure` with non-empty ServiceAccountJsonFile that returned
a nil error; and when the credential is unset before a call of `Configure`,
as it is when no call has been made yet, it is present after the call if and
only if ServiceAccountJsonFile was non-empty and the call succeeded, so that
after such a call that returns an error it is not present. -/
theorem credential_invariant (getenv : Getenv) (readFile : ReadFile)
    (parse : JWTConfigFromJSON) (acts : List Action) :
    ((runFrom readFile parse (NewOptions getenv) acts).opts.jwtConfig ≠ none →
      ∃ c ∈ (runFrom readFile parse (NewOptions getenv) acts).calls,
        c.Path ≠ "" ∧ c.Err = none) ∧
    ((∀ a ∈ acts, a ≠ Action.configure) →
      (runFrom readFile parse (NewOptions getenv) acts).opts.jwtConfig = none) ∧
    ((runFrom readFile parse (NewOptions getenv) acts).opts.jwtConfig = none →
      (runFrom readFile parse (NewOptions getenv) (acts ++ [.configure])).calls.getLast? =
        some ⟨(runFrom readFile parse (NewOptions getenv) acts).opts.ServiceAccountJsonFile,
          ((runFrom readFile parse (NewOptions getenv) acts).opts.Configure readFile parse).2⟩ ∧
      ((runFrom readFile parse (NewOptions getenv) (acts ++ [.configure])).opts.jwtConfig
          ≠ none ↔
        (runFrom readFile parse (NewOptions getenv) acts).opts.ServiceAccountJsonFile ≠ "" ∧
        ((runFrom readFile parse (NewOptions getenv) acts).opts.Configure readFile parse).2
          = none) ∧
      (((runFrom readFile parse (NewOptions getenv) acts).opts.Configure readFile parse).2
          ≠ none →
        (runFrom readFile parse (NewOptions getenv) (acts ++ [.configure])).opts.jwtConfig
          = none)) := by
  refine ⟨run_credential_origin readFile parse _ rfl acts, ?_, ?_⟩
  · intro hs
    exact (run_sets_jwtConfig readFile parse _ acts hs).1
  · intro hnone
    rw [runFrom_snoc]
    simp only [RunState.step]
    have hC := Configure_jwtConfig readFile parse (runFrom readFile parse (NewOptions getenv)
      acts).opts
    refine ⟨by simp, ⟨fun h => ?_, fun h => hC.2.1 h.1 h.2⟩, fun herr => ?_⟩
    · rcases hC.1 h with hgood | hold
      · exact hgood
      · exact absurd hnone hold
    · rcases hC.2.2 herr with h1 | h2
      · exact h1
      · rw [h2]
        exact hnone

/-- A single call of `Configure` after assignments to fresh options: the
example key file gives a credential, the missing file gives an error and no
credential. -/
theorem credential_invariant_witness :
    (runFrom exampleReadFile exampleParse (NewOptions exampleGetenv)
      [.set .ServiceAccountJsonFile "/tmp/key.json"]).opts.jwtConfig = none ∧
    (runFrom exampleReadFile exampleParse (NewOptions exampleGetenv)
      ([.set .ServiceAccountJsonFile "/tmp/key.json"] ++ [.configure])).opts.jwtConfig
        ≠ none ∧
    (runFrom exampleReadFile exampleParse (NewOptions exampleGetenv)
      ([.set .ServiceAccountJsonFile "/nonexistent/key.json"] ++ [.configure])).opts.jwtConfig
        = none :=
  ⟨(credential_invariant exampleGetenv exampleReadFile exampleParse
      [.set .ServiceAccountJsonFile "/tmp/key.json"]).2.1 (by decide),
    ((credential_invariant exampleGetenv exampleReadFile exampleParse
      [.set .ServiceAccountJsonFile "/tmp/key.json"]).2.2 rfl).2.1.mpr ⟨by decide, rfl⟩,
    ((credential_invariant exampleGetenv exampleReadFile exampleParse
      [.set .ServiceAccountJsonFile "/nonexistent/key.json"]).2.2 rfl).2.2 (by decide)⟩

/-! ## `Validate` and `AddFlags` -/

/-- The options `Configure` leaves differ from the ones it was called on in
the credential at most. -/
theorem Configure_raw_fields (readFile : ReadFile) (parse : JWTConfigFromJSON) (o : Options) :
    ∃ cred, (o.Configure readFile parse).1 = { o with jwtConfig := cred } := by
  by_cases he : o.ServiceAccountJsonFile = ""
  · rw [Configure_of_empty_path readFile parse o he]
    exact ⟨o.jwtConfig, rfl⟩
  · cases hr : readFile o.ServiceAccountJsonFile with
    | error e =>
      rw [Configure_of_read_error readFile parse o e he hr]
      exact ⟨o.jwtConfig, rfl⟩
    | ok b =>
      cases hp : parse b [AdminDirectoryGroupReadonlyScope] with
      | error e =>
        rw [Configure_of_parse_error readFile parse o b e he hr hp]
        exact ⟨none, rfl⟩
      | ok cfg =>
        rw [Configure_of_parse_ok readFile parse o b cfg he hr hp]
        exact ⟨_, rfl⟩

/-- C13: `Validate` depends only on the four raw fields. Options that agree
on ServiceAccountJsonFile, AdminEmail, ClientID and ClientSecret get the
same error list whatever their credentials are; in particular the list is
the same for any credential put in place of the present one, and the same
before and after `Configure`. -/
theorem Validate_ignores_credential (o₁ o₂ : Options)
    (hf : o₁.ServiceAccountJsonFile = o₂.ServiceAccountJsonFile)
    (he : o₁.AdminEmail = o₂.AdminEmail)
    (hi : o₁.ClientID = o₂.ClientID)
    (hs : o₁.ClientSecret = o₂.ClientSecret) :
    o₁.Validate = o₂.Validate ∧
    (∀ cred : Option JwtConfig, ({ o₁ with jwtConfig := cred } : Options).Validate = o₂.Validate) ∧
    (∀ (readFile : ReadFile) (parse : JWTConfigFromJSON),
      (o₁.Configure readFile parse).1.Validate = o₂.Validate) := by
  have h : o₁.Validate = o₂.Validate := by
    unfold Options.Validate
    rw [hf, he, hi, hs]
  refine ⟨h, fun cred => h, ?_⟩
  intro readFile parse
  obtain ⟨cred, hc⟩ := Configure_raw_fields readFile parse o₁
  rw [hc]
  exact h

/-- The example options before `Configure` (no credential) and after it
(credential set) agree on the raw fields and validate alike. -/
theorem Validate_ignores_credential_witness :
    exampleOptions.jwtConfig = none ∧
    (exampleOptions.Configure exampleReadFile exampleParse).1.jwtConfig ≠ none ∧
    exampleOptions.Validate =
      (exampleOptions.Configure exampleReadFile exampleParse).1.Validate ∧
    noAdminOptions.Validate = [.new "google.admin-email must be non-empty"] ∧
    (noAdminOptions.Configure exampleReadFile exampleParse).1.Validate =
      [.new "google.admin-email must be non-empty"] :=
  ⟨rfl, by decide,
    (Validate_ignores_credential exampleOptions
      (exampleOptions.Configure exampleReadFile exampleParse).1 rfl rfl rfl rfl).1,
    rfl,
    ((Validate_ignores_credential noAdminOptions noAdminOptions rfl rfl rfl rfl).2.2
      exampleReadFile exampleParse).trans rfl⟩

/-- A flag set none of whose names is `name` passes the test of `StringVar`. -/
theorem any_name_eq_false (fs : FlagSet) (name : String) (hfree : ∀ f ∈ fs, f.Name ≠ name) :
    fs.any (fun f => f.Name == name) = false := by
  rw [List.any_eq_false]
  intro f hf
  simpa using hfree f hf

/-- The result of `AddFlags` on a flag set that holds none of its four names. -/
theorem AddFlags_of_free (o : Options) (fs : FlagSet)
    (hfree : ∀ f ∈ fs, f.Name ∉
      ["google.sa-json-file", "google.admin-email", "google.client-id",
       "google.client-secret"]) :
    o.AddFlags fs = .ok (o, fs ++
      [⟨.ServiceAccountJsonFile, "google.sa-json-file", o.ServiceAccountJsonFile,
          "Path to Google service account json file"⟩,
       ⟨.AdminEmail, "google.admin-email", o.AdminEmail, "Email of G Suite administrator"⟩,
       ⟨.ClientID, "google.client-id", o.ClientID, "OAuth2 application client ID to use"⟩,
       ⟨.ClientSecret, "google.client-secret", o.ClientSecret,
          "OAuth2 application client secret to use"⟩]) := by
  have h1 := any_name_eq_false fs "google.sa-json-file" (fun f hf he =>
    hfree f hf (by simp [he]))
  have h2 := any_name_eq_false fs "google.admin-email" (fun f hf he =>
    hfree f hf (by simp [he]))
  have h3 := any_name_eq_false fs "google.client-id" (fun f hf he =>
    hfree f hf (by simp [he]))
  have h4 := any_name_eq_false fs "google.client-secret" (fun f hf he =>
    hfree f hf (by simp [he]))
  simp [Options.AddFlags, FlagSet.StringVar, bind, Except.bind, pure, Except.pure,
    List.any_append, h1, h2, h3, h4]

/-- The result of `AddFlags` on a flag set that holds its first name. -/
theorem AddFlags_redefined (o : Options) (fs : FlagSet)
    (htaken : ∃ f ∈ fs, f.Name = "google.sa-json-file") :
    o.AddFlags fs = .error "google.sa-json-file" := by
  have h : fs.any (fun f => f.Name == "google.sa-json-file") = true := by
    rw [List.any_eq_true]
    obtain ⟨f, hf, hn⟩ := htaken
    exact ⟨f, hf, by simp [hn]⟩
  simp [Options.AddFlags, FlagSet.StringVar, bind, Except.bind, h]

/-- C14: on a flag set that holds none of the four names yet, `AddFlags`
registers exactly four string options, after the ones the set already has:
`google.sa-json-file`, `google.admin-email`, `google.client-id` and
`google.client-secret`, bound to ServiceAccountJsonFile, AdminEmail, ClientID
and ClientSecret, each with the value of its field at the time of the call
as default; the options are left as they were. -/
theorem AddFlags_registers (o : Options) (fs : FlagSet)
    (hfree : ∀ f ∈ fs, f.Name ∉
      ["google.sa-json-file", "google.admin-email", "google.client-id",
       "google.client-secret"]) :
    ∃ (o' : Options) (fs' : FlagSet),
      o.AddFlags fs = .ok (o', fs') ∧
      fs' = fs ++
        [⟨.ServiceAccountJsonFile, "google.sa-json-file", o.ServiceAccountJsonFile,
            "Path to Google service account json file"⟩,
         ⟨.AdminEmail, "google.admin-email", o.AdminEmail, "Email of G Suite administrator"⟩,
         ⟨.ClientID, "google.client-id", o.ClientID, "OAuth2 application client ID to use"⟩,
         ⟨.ClientSecret, "google.client-secret", o.ClientSecret,
            "OAuth2 application client secret to use"⟩] ∧
      fs'.length = fs.length + 4 ∧
      (fs'.drop fs.length).map (fun f => (f.Name, f.Target, f.DefValue)) =
        [("google.sa-json-file", .ServiceAccountJsonFile, o.ServiceAccountJsonFile),
         ("google.admin-email", .AdminEmail, o.AdminEmail),
         ("google.client-id", .ClientID, o.ClientID),
         ("google.client-secret", .ClientSecret, o.ClientSecret)] ∧
      o' = o := by
  refine ⟨o, _, AddFlags_of_free o fs hfree, rfl, by simp, by simp, rfl⟩

/-- The example options on a flag set holding one other flag: the four
options are registered after it; a second `AddFlags` on the resulting set
finds `google.sa-json-file` taken and faults. -/
theorem AddFlags_registers_witness :
    (∀ f ∈ ([⟨.ClientID, "client-id", "", "Short name of google.client-id"⟩] : FlagSet), f.Name ∉
      ["google.sa-json-file", "google.admin-email", "google.client-id",
       "google.client-secret"]) ∧
    (∃ (o' : Options) (fs' : FlagSet),
      exampleOptions.AddFlags [⟨.ClientID, "client-id", "", "Short name of google.client-id"⟩] = .ok (o', fs') ∧
      fs'.length = 5 ∧
      fs'.map (fun f => f.Name) =
        ["client-id", "google.sa-json-file", "google.admin-email", "google.client-id",
         "google.client-secret"] ∧
      o' = exampleOptions ∧
      exampleOptions.AddFlags fs' = .error "google.sa-json-file") := by
  refine ⟨by decide, ?_⟩
  obtain ⟨o', fs', h, hfs, hlen, -, ho⟩ :=
    AddFlags_registers exampleOptions [⟨.ClientID, "client-id", "", "Short name of google.client-id"⟩] (by decide)
  refine ⟨o', fs', h, hlen, ?_, ho, ?_⟩
  · rw [hfs]
    rfl
  · rw [hfs]
    rfl

/-! ## `Apply`: failure and faults -/

/-- C15: on a deployment with at least one container, when the read of the
key file fails `Apply` returns with the deployment equal to the one it was
given (no volume, volume mount, env entry or argument added) and with no
extra object. -/
theorem Apply_failure_leaves_deployment (readFile : ReadFile) (o : Options) (d : Deployment)
    (e : GoError)
    (hc : d.Spec.Template.Spec.Containers ≠ [])
    (hr : readFile o.ServiceAccountJsonFile = .error e) :
    ∃ (d' : Deployment) (objs : List RuntimeObject) (err : Option GoError),
      o.Apply readFile d = .returned d' objs err ∧
      d' = d ∧
      d'.Spec.Template.Spec.Volumes = d.Spec.Template.Spec.Volumes ∧
      d'.Spec.Template.Spec.Containers = d.Spec.Template.Spec.Containers ∧
      objs = [] ∧
      err ≠ none := by
  obtain ⟨c, rest, hcs⟩ := List.exists_cons_of_ne_nil hc
  refine ⟨d, [], some e, ?_, rfl, rfl, rfl, rfl, by simp⟩
  unfold Options.Apply
  simp only [hcs, hr]

/-- The missing key file of the example: the deployment comes back
unchanged and no object is returned. -/
theorem Apply_failure_leaves_deployment_witness :
    exampleDeployment.Spec.Template.Spec.Containers ≠ [] ∧
    exampleReadFile missingKeyOptions.ServiceAccountJsonFile =
      .error (.foreign "open /nonexistent/key.json: no such file or directory") ∧
    ∃ (d' : Deployment) (objs : List RuntimeObject) (err : Option GoError),
      missingKeyOptions.Apply exampleReadFile exampleDeployment = .returned d' objs err ∧
      d' = exampleDeployment ∧
      d'.Spec.Template.Spec.Volumes = exampleDeployment.Spec.Template.Spec.Volumes ∧
      d'.Spec.Template.Spec.Containers = exampleDeployment.Spec.Template.Spec.Containers ∧
      objs = [] ∧
      err ≠ none :=
  ⟨by decide, rfl,
    Apply_failure_leaves_deployment exampleReadFile missingKeyOptions exampleDeployment
      (.foreign "open /nonexistent/key.json: no such file or directory") (by decide) rfl⟩

/-- C16, as stated, fails: on the deployment without containers and the
missing key file, the read would fail, but `Apply` takes `Containers[0]`
first and faults; it returns neither the read error nor anything else. -/
theorem Apply_faults_before_read :
    emptyDeployment.Spec.Template.Spec.Containers = [] ∧
    exampleReadFile missingKeyOptions.ServiceAccountJsonFile =
      .error (.foreign "open /nonexistent/key.json: no such file or directory") ∧
    missingKeyOptions.Apply exampleReadFile emptyDeployment =
      .fault "index out of range [0] with length 0" ∧
    ¬ ∃ (d' : Deployment) (objs : List RuntimeObject) (err : Option GoError),
      missingKeyOptions.Apply exampleReadFile emptyDeployment = .returned d' objs err := by
  have h : missingKeyOptions.Apply exampleReadFile emptyDeployment =
      .fault "index out of range [0] with length 0" := rfl
  refine ⟨rfl, rfl, h, ?_⟩
  rintro ⟨d', objs, err, hret⟩
  rw [h] at hret
  simp at hret

/-- C16, amended: `Apply` takes the first container before it reads the key
file. On an empty container list it faults whatever the file system holds,
also when the read would fail; on a deployment with at least one container
it never faults, and when the read fails it returns the read error and no
objects. -/
theorem Apply_index_before_read (readFile : ReadFile) (o : Options) (d : Deployment) :
    (d.Spec.Template.Spec.Containers = [] →
      o.Apply readFile d = .fault "index out of range [0] with length 0") ∧
    (d.Spec.Template.Spec.Containers ≠ [] →
      (∀ msg, o.Apply readFile d ≠ .fault msg) ∧
      (∀ e, readFile o.ServiceAccountJsonFile = .error e →
        o.Apply readFile d = .returned d [] (some e)) ∧
      (∀ b, readFile o.ServiceAccountJsonFile = .ok b →
        ∃ d' objs, o.Apply readFile d = .returned d' objs none)) := by
  constructor
  · intro hnil
    unfold Options.Apply
    simp only [hnil]
  · intro hc
    obtain ⟨c, rest, hcs⟩ := List.exists_cons_of_ne_nil hc
    refine ⟨?_, ?_, ?_⟩
    · intro msg
      cases hr : readFile o.ServiceAccountJsonFile with
      | error e =>
        unfold Options.Apply
        simp only [hcs, hr]
        simp
      | ok b =>
        rw [Apply_of_cons_ok readFile o d c rest b hcs hr]
        simp
    · intro e hr
      unfold Options.Apply
      simp only [hcs, hr]
    · intro b hr
      exact ⟨_, _, Apply_of_cons_ok readFile o d c rest b hcs hr⟩

/-- The deployment without containers faults, the example deployment does
not: with the missing key file it returns the read error. -/
theorem Apply_index_before_read_witness :
    emptyDeployment.Spec.Template.Spec.Containers = [] ∧
    exampleOptions.Apply exampleReadFile emptyDeployment =
      .fault "index out of range [0] with length 0" ∧
    exampleDeployment.Spec.Template.Spec.Containers ≠ [] ∧
    missingKeyOptions.Apply exampleReadFile exampleDeployment =
      .returned exampleDeployment []
        (some (.foreign "open /nonexistent/key.json: no such file or directory")) :=
  ⟨rfl,
    (Apply_index_before_read exampleReadFile exampleOptions emptyDeployment).1 rfl,
    by decide,
    ((Apply_index_before_read exampleReadFile missingKeyOptions exampleDeployment).2
      (by decide)).2.1 _ rfl⟩

/-! ## `Apply` and the client secret -/

/-- C17: `Apply` never exposes the client secret. Two options that differ
only in ClientSecret and in the credential (they agree on
ServiceAccountJsonFile, AdminEmail and ClientID) give, on the same
deployment and file system, the same outcome: equal extra objects, equal
deployment and equal error. Whatever ClientSecret and credential are put in
place, every argument, env entry, volume and Secret data produced stays the
same, so none of them carries the value of ClientSecret. -/
theorem Apply_ignores_client_secret (readFile : ReadFile) (o₁ o₂ : Options) (d : Deployment)
    (hf : o₁.ServiceAccountJsonFile = o₂.ServiceAccountJsonFile)
    (he : o₁.AdminEmail = o₂.AdminEmail)
    (hi : o₁.ClientID = o₂.ClientID) :
    o₁.Apply readFile d = o₂.Apply readFile d ∧
    (∀ (secret : String) (cred : Option JwtConfig),
      ({ o₁ with ClientSecret := secret, jwtConfig := cred } : Options).Apply readFile d =
        o₂.Apply readFile d) := by
  have h : o₁.Apply readFile d = o₂.Apply readFile d := by
    unfold Options.Apply
    rw [hf, he, hi]
  exact ⟨h, fun _ _ => h⟩

/-- The example options and the ones with the client secret `cid` differ
only in ClientSecret and give the same outcome. -/
theorem Apply_ignores_client_secret_witness :
    exampleOptions.ClientSecret ≠ sameIdSecretOptions.ClientSecret ∧
    exampleOptions.Apply exampleReadFile exampleDeployment =
      sameIdSecretOptions.Apply exampleReadFile exampleDeployment :=
  ⟨by decide,
    (Apply_ignores_client_secret exampleReadFile exampleOptions sameIdSecretOptions
      exampleDeployment rfl rfl rfl).1⟩

/-! ## The arguments of `Apply` and the flags of `AddFlags` -/

/-- The client-id argument splits into its flag name and ClientID. -/
theorem parseLongArg_client_id (v : String) :
    parseLongArg ("--google.client-id=" ++ v) = some ("google.client-id", v) := by
  unfold parseLongArg
  simp [String.data_append]

/-- The admin-email argument splits into its flag name and AdminEmail. -/
theorem parseLongArg_admin_email (v : String) :
    parseLongArg ("--google.admin-email=" ++ v) = some ("google.admin-email", v) := by
  unfold parseLongArg
  simp [String.data_append]

/-- The sa-json-file argument splits into its flag name and the mounted path. -/
theorem parseLongArg_sa_json_file :
    parseLongArg "--google.sa-json-file=/etc/guard/auth/google/sa.json" =
      some ("google.sa-json-file", "/etc/guard/auth/google/sa.json") := by
  decide

/-- Dropping the characters of a first string from an append leaves the
second string. -/
theorem drop_append_data (p v : String) :
    String.mk ((p ++ v).data.drop p.length) = v := by
  obtain ⟨a⟩ := p
  obtain ⟨b⟩ := v
  show String.mk ((a ++ b).drop a.length) = ⟨b⟩
  rw [List.drop_left]

/-- The four flags `AddFlags` registers for the options `o`. -/
theorem AddFlags_nil (o : Options) :
    o.AddFlags [] = .ok (o,
      [⟨.ServiceAccountJsonFile, "google.sa-json-file", o.ServiceAccountJsonFile,
          "Path to Google service account json file"⟩,
       ⟨.AdminEmail, "google.admin-email", o.AdminEmail, "Email of G Suite administrator"⟩,
       ⟨.ClientID, "google.client-id", o.ClientID, "OAuth2 application client ID to use"⟩,
       ⟨.ClientSecret, "google.client-secret", o.ClientSecret,
          "OAuth2 application client secret to use"⟩]) :=
  AddFlags_of_free o [] (by simp)

/-- What the flag set built by `AddFlags` on the options `o'` makes of the
arguments `Apply` appends for the options `o`. -/
theorem Parse_appended (o o' : Options) :
    FlagSet.Parse
      [⟨.ServiceAccountJsonFile, "google.sa-json-file", o'.ServiceAccountJsonFile,
          "Path to Google service account json file"⟩,
       ⟨.AdminEmail, "google.admin-email", o'.AdminEmail, "Email of G Suite administrator"⟩,
       ⟨.ClientID, "google.client-id", o'.ClientID, "OAuth2 application client ID to use"⟩,
       ⟨.ClientSecret, "google.client-secret", o'.ClientSecret,
          "OAuth2 application client secret to use"⟩] o'
      ((if o.ClientID ≠ "" then ["--google.client-id=" ++ o.ClientID] else [])
        ++ (if o.ServiceAccountJsonFile ≠ "" then
              ["--google.sa-json-file=/etc/guard/auth/google/sa.json"] else [])
        ++ (if o.AdminEmail ≠ "" then ["--google.admin-email=" ++ o.AdminEmail] else [])) =
      some
        { ServiceAccountJsonFile :=
            if o.ServiceAccountJsonFile ≠ "" then "/etc/guard/auth/google/sa.json"
            else o'.ServiceAccountJsonFile
          AdminEmail := if o.AdminEmail ≠ "" then o.AdminEmail else o'.AdminEmail
          ClientID := if o.ClientID ≠ "" then o.ClientID else o'.ClientID
          ClientSecret := o'.ClientSecret
          jwtConfig := o'.jwtConfig } := by
  by_cases h1 : o.ClientID = "" <;> by_cases h2 : o.ServiceAccountJsonFile = "" <;>
    by_cases h3 : o.AdminEmail = "" <;>
    simp [h1, h2, h3, FlagSet.Parse, Options.setField,
      parseLongArg_client_id, parseLongArg_admin_email, parseLongArg_sa_json_file]

/-- C18, as stated, fails: the example options with an empty ClientID get no
client-id argument from `Apply`; the flag set a process builds with
`AddFlags` on fresh options, in an environment that sets `GOOGLE_CLIENT_ID`,
reads the appended arguments and keeps its default `env-client`, so ClientID
is not restored. -/
theorem Apply_args_keep_default_client_id :
    noClientIdOptions.ClientID = "" ∧
    ∃ (d' : Deployment) (objs : List RuntimeObject) (c' : Container) (o'' : Options)
      (fs' : FlagSet),
      noClientIdOptions.Apply exampleReadFile exampleDeployment = .returned d' objs none ∧
      d'.Spec.Template.Spec.Containers[0]? = some c' ∧
      c'.Args = exampleContainer.Args ++
        ["--google.sa-json-file=/etc/guard/auth/google/sa.json",
         "--google.admin-email=admin@example.com"] ∧
      (NewOptions exampleGetenv).AddFlags [] = .ok (NewOptions exampleGetenv, fs') ∧
      FlagSet.Parse fs' (NewOptions exampleGetenv)
        (c'.Args.drop exampleContainer.Args.length) = some o'' ∧
      o''.ClientID = "env-client" ∧
      o''.ClientID ≠ noClientIdOptions.ClientID ∧
      o''.AdminEmail = noClientIdOptions.AdminEmail := by
  refine ⟨rfl, _, _, _, ⟨"/etc/guard/auth/google/sa.json", "admin@example.com", "env-client",
    "", none⟩, _, rfl, rfl, rfl, AddFlags_nil _, ?_, rfl, by decide, rfl⟩
  decide

/-- C18, amended: every argument a successful `Apply` appends has the form
`--name=value` with `name` one of the flag names `AddFlags` registers; for
the client-id and admin-email arguments dropping the `--name=` prefix leaves
ClientID and AdminEmail exactly, whatever characters they contain; and a
flag set built by `AddFlags` that reads the appended arguments sets each of
ClientID and AdminEmail that is non-empty to its value and, when
ServiceAccountJsonFile is non-empty, sets ServiceAccountJsonFile to the
mounted path, while a field that is empty has no argument and keeps the
default of the flag. -/
theorem Apply_args_match_flags (readFile : ReadFile) (o o' : Options) (d d' : Deployment)
    (objs : List RuntimeObject) (c : Container)
    (hc : d.Spec.Template.Spec.Containers[0]? = some c)
    (h : o.Apply readFile d = .returned d' objs none) :
    ∃ (c' : Container) (extra : List String) (o'' : Options) (fs' : FlagSet),
      o'.AddFlags [] = .ok (o', fs') ∧
      d'.Spec.Template.Spec.Containers[0]? = some c' ∧
      c'.Args = c.Args ++ extra ∧
      (∀ a ∈ extra, ∃ f ∈ fs', ∃ value : String,
        a = "--" ++ f.Name ++ "=" ++ value ∧ parseLongArg a = some (f.Name, value)) ∧
      (o.ClientID ≠ "" →
        "--google.client-id=" ++ o.ClientID ∈ extra ∧
        String.mk (("--google.client-id=" ++ o.ClientID).data.drop
          "--google.client-id=".length) = o.ClientID) ∧
      (o.AdminEmail ≠ "" →
        "--google.admin-email=" ++ o.AdminEmail ∈ extra ∧
        String.mk (("--google.admin-email=" ++ o.AdminEmail).data.drop
          "--google.admin-email=".length) = o.AdminEmail) ∧
      FlagSet.Parse fs' o' extra = some o'' ∧
      (o.ClientID ≠ "" → o''.ClientID = o.ClientID) ∧
      (o.AdminEmail ≠ "" → o''.AdminEmail = o.AdminEmail) ∧
      (o.ServiceAccountJsonFile ≠ "" →
        o''.ServiceAccountJsonFile = "/etc/guard/auth/google/sa.json") ∧
      (o.ClientID = "" → o''.ClientID = o'.ClientID) ∧
      (o.AdminEmail = "" → o''.AdminEmail = o'.AdminEmail) ∧
      (o.ServiceAccountJsonFile = "" →
        o''.ServiceAccountJsonFile = o'.ServiceAccountJsonFile) ∧
      o''.ClientSecret = o'.ClientSecret := by
  obtain ⟨c₀, rest, sa, hc₀, hr⟩ := Apply_success_inv h
  rw [Apply_of_cons_ok readFile o d c₀ rest sa hc₀ hr] at h
  simp only [ApplyOutcome.returned.injEq] at h
  obtain ⟨rfl, -, -⟩ := h
  have hcc : c₀ = c := by simpa [hc₀] using hc
  subst hcc
  refine ⟨
    { c₀ with
      VolumeMounts := c₀.VolumeMounts ++
        [{ Name := "guard-google-auth", MountPath := "/etc/guard/auth/google" }]
      Env := c₀.Env ++
        [{ Name := "GOOGLE_CLIENT_SECRET"
           ValueFrom := some
             { SecretKeyRef := some ⟨⟨"google-oidc-credentials"⟩, "client-secret"⟩ } }]
      Args := c₀.Args ++
        ((if o.ClientID ≠ "" then ["--google.client-id=" ++ o.ClientID] else [])
          ++ (if o.ServiceAccountJsonFile ≠ "" then
                ["--google.sa-json-file=/etc/guard/auth/google/sa.json"] else [])
          ++ (if o.AdminEmail ≠ "" then
                ["--google.admin-email=" ++ o.AdminEmail] else [])) },
    ((if o.ClientID ≠ "" then ["--google.client-id=" ++ o.ClientID] else [])
      ++ (if o.ServiceAccountJsonFile ≠ "" then
            ["--google.sa-json-file=/etc/guard/auth/google/sa.json"] else [])
      ++ (if o.AdminEmail ≠ "" then ["--google.admin-email=" ++ o.AdminEmail] else [])),
    _,
    [⟨.ServiceAccountJsonFile, "google.sa-json-file", o'.ServiceAccountJsonFile,
        "Path to Google service account json file"⟩,
      ⟨.AdminEmail, "google.admin-email", o'.AdminEmail, "Email of G Suite administrator"⟩,
      ⟨.ClientID, "google.client-id", o'.ClientID, "OAuth2 application client ID to use"⟩,
      ⟨.ClientSecret, "google.client-secret", o'.ClientSecret,
        "OAuth2 application client secret to use"⟩],
    AddFlags_nil o', by simp, rfl, ?_, ?_, ?_, Parse_appended o o', ?_, ?_, ?_, ?_, ?_, ?_,
    rfl⟩
  · intro a ha
    simp only [List.mem_append] at ha
    rcases ha with (ha | ha) | ha
    · by_cases h1 : o.ClientID = ""
      · simp [h1] at ha
      · simp only [h1, ne_eq, not_false_eq_true, if_true, List.mem_singleton] at ha
        subst ha
        exact ⟨⟨.ClientID, "google.client-id", o'.ClientID,
          "OAuth2 application client ID to use"⟩, by simp, o.ClientID, rfl,
          parseLongArg_client_id _⟩
    · by_cases h2 : o.ServiceAccountJsonFile = ""
      · simp [h2] at ha
      · simp only [h2, ne_eq, not_false_eq_true, if_true, List.mem_singleton] at ha
        subst ha
        exact ⟨⟨.ServiceAccountJsonFile, "google.sa-json-file", o'.ServiceAccountJsonFile,
          "Path to Google service account json file"⟩, by simp,
          "/etc/guard/auth/google/sa.json", rfl, parseLongArg_sa_json_file⟩
    · by_cases h3 : o.AdminEmail = ""
      · simp [h3] at ha
      · simp only [h3, ne_eq, not_false_eq_true, if_true, List.mem_singleton] at ha
        subst ha
        exact ⟨⟨.AdminEmail, "google.admin-email", o'.AdminEmail,
          "Email of G Suite administrator"⟩, by simp, o.AdminEmail, rfl,
          parseLongArg_admin_email _⟩
  · intro h1
    exact ⟨by simp [h1], drop_append_data _ _⟩
  · intro h3
    exact ⟨by simp [h3], drop_append_data _ _⟩
  · intro h1
    simp [h1]
  · intro h3
    simp [h3]
  · intro h2
    simp [h2]
  · intro h1
    simp [h1]
  · intro h3
    simp [h3]
  · intro h2
    simp [h2]

/-- The specification example, read by the flag set of fresh options: all
three fields are non-empty and come back, the client secret stays the
default. -/
theorem Apply_args_match_flags_witness :
    exampleDeployment.Spec.Template.Spec.Containers[0]? = some exampleContainer ∧
    ∃ (d' : Deployment) (objs : List RuntimeObject),
      exampleOptions.Apply exampleReadFile exampleDeployment = .returned d' objs none ∧
      ∃ (c' : Container) (extra : List String) (o'' : Options) (fs' : FlagSet),
        (NewOptions exampleGetenv).AddFlags [] = .ok (NewOptions exampleGetenv, fs') ∧
        d'.Spec.Template.Spec.Containers[0]? = some c' ∧
        c'.Args = exampleContainer.Args ++ extra ∧
        FlagSet.Parse fs' (NewOptions exampleGetenv) extra = some o'' ∧
        o''.ClientID = exampleOptions.ClientID ∧
        o''.AdminEmail = exampleOptions.AdminEmail ∧
        o''.ServiceAccountJsonFile = "/etc/guard/auth/google/sa.json" ∧
        o''.ClientSecret = (NewOptions exampleGetenv).ClientSecret := by
  refine ⟨rfl, _, _, rfl, ?_⟩
  obtain ⟨c', extra, o'', fs', h0, h1, h2, -, -, -, h6, h7, h8, h9, -, -, -, h13⟩ :=
    Apply_args_match_flags exampleReadFile exampleOptions (NewOptions exampleGetenv)
      exampleDeployment _ _ exampleContainer rfl rfl
  exact ⟨c', extra, o'', fs', h0, h1, h2, h6, h7 (by decide), h8 (by decide), h9 (by decide),
    h13⟩

/-! ## `Apply` applied twice -/

/-- The allocator only moves forward. -/
theorem next_le_append {α : Type} (zero : α) (grow : Nat → Nat) (h : Arrays α) (next : Nat)
    (s : Slice) (x : α) : next ≤ (Arrays.append zero grow h next s x).next := by
  unfold Arrays.append
  split <;> simp

/-- The allocator only moves forward. -/
theorem next_le_appendIf (c : Prop) [Decidable c] (grow : Nat → Nat) (a : Appended String)
    (x : String) :
    a.next ≤ (if c then Arrays.append "" grow a.arrays a.next a.slice x else a).next := by
  by_cases hc : c
  · simp only [hc, if_true]
    exact next_le_append _ _ _ _ _ _
  · simp [hc]


end google
